import Mathlib

set_option maxRecDepth 8000000

/-!
Verification of the reasoning engine of the knowledge-based IT-support system
(`reasoning/engine.py` and `knowledge/rules.py`), as a shallow embedding.

Strings are Lean `String`s; Python floats are modelled as exact rationals `ℚ`
(every score in the source is a ratio of small integers adjusted by decimal
literals); Python dicts whose keys are fixed in the source become structures,
with `Option` fields for the keys that some construction sites omit; a Python
list is a Lean `List`.  Python's substring test `a in b`, `str.split()`,
`str.strip(chars)`, `str.lower()` and the `re` word-boundary search used by
the emergency detector are defined below, character by character.
-/

namespace KBS

/-- Python `needle in hay` would ask whether `needle` is a contiguous
substring: prefix test at one position, case sensitive. -/
def listStartsWith : List Char → List Char → Bool
  | [], _ => true
  | _ :: _, [] => false
  | a :: as, b :: bs => a = b && listStartsWith as bs

/-- Substring search over the character list of the haystack. -/
def substrAux (needle : List Char) : List Char → Bool
  | [] => listStartsWith needle []
  | c :: rest => listStartsWith needle (c :: rest) || substrAux needle rest

/-- Python `sub in s` (contiguous substring, the empty string matches). -/
def strContains (s sub : String) : Bool :=
  substrAux sub.data s.data

/-- Splitter on whitespace runs, accumulating the current word reversed. -/
def splitWsAux : List Char → List Char → List String
  | [], acc => if acc.isEmpty then [] else [⟨acc.reverse⟩]
  | c :: cs, acc =>
    if c.isWhitespace then
      if acc.isEmpty then splitWsAux cs [] else ⟨acc.reverse⟩ :: splitWsAux cs []
    else splitWsAux cs (c :: acc)

/-- Python `str.split()` with no argument: split on runs of whitespace,
discarding empty pieces. -/
def pySplit (s : String) : List String := splitWsAux s.data []

/-- Python `str.strip(chars)`: remove leading and trailing characters drawn
from `cs`. -/
def stripChars (cs : List Char) (s : String) : String :=
  ⟨((s.data.dropWhile (fun c => c ∈ cs)).reverse.dropWhile (fun c => c ∈ cs)).reverse⟩

/-- Python `str.strip()`: remove leading and trailing whitespace. -/
def pyStrip (s : String) : String :=
  ⟨((s.data.dropWhile Char.isWhitespace).reverse.dropWhile Char.isWhitespace).reverse⟩

/-- Python `str.lower()` (character-wise; the source's strings are ASCII
letters, digits, punctuation and symbols, on which this agrees with Python). -/
def pyLower (s : String) : String := ⟨s.data.map Char.toLower⟩

/-- Python `str.upper()` (character-wise, as for `pyLower`). -/
def pyUpper (s : String) : String := ⟨s.data.map Char.toUpper⟩

/-- Python `s[:n]` on a string. -/
def pyTake (n : Nat) (s : String) : String := ⟨s.data.take n⟩

/-! Rational arithmetic, written through `mkRat` so that every score a
concrete run produces evaluates inside the kernel.  `qadd_eq`, `qsub_eq`,
`qmul_eq` and `qdiv_eq` below prove these equal to the field operations
of `ℚ`. -/

/-- Addition on `ℚ` through `mkRat`. -/
def qadd (a b : ℚ) : ℚ :=
  mkRat (a.num * (b.den : ℤ) + b.num * (a.den : ℤ)) (a.den * b.den)

/-- Subtraction on `ℚ` through `mkRat`. -/
def qsub (a b : ℚ) : ℚ :=
  mkRat (a.num * (b.den : ℤ) - b.num * (a.den : ℤ)) (a.den * b.den)

/-- Multiplication on `ℚ` through `mkRat`. -/
def qmul (a b : ℚ) : ℚ := mkRat (a.num * b.num) (a.den * b.den)

/-- Division on `ℚ` through `mkRat` (division by zero gives 0, as in `ℚ`). -/
def qdiv (a b : ℚ) : ℚ :=
  if 0 ≤ b.num then mkRat (a.num * (b.den : ℤ)) (a.den * b.num.natAbs)
  else mkRat (-(a.num * (b.den : ℤ))) (a.den * b.num.natAbs)

/-- The single-quote character as a string (used by the quoted-question test). -/
def singleQuote : String := String.mk ['\x27']

/-- The word set of a string under Python `set(s.split())`. -/
def wordFinset (s : String) : Finset String := (pySplit s).toFinset

/-- An answer record: the dict shape produced by `enhanced_reason` and its
helpers.  `type`, `content`, `confidence` and `priority` are written by every
construction site of the source; the remaining keys are omitted by some sites
and so are `Option`s (`none` = key absent). -/
structure Answer where
  type : String
  content : String
  category : Option String := none
  confidence : String
  priority : String
  match_score : Option ℚ := none
  relevance_score : Option ℚ := none
  rule_advice : Option (List String) := none
  troubleshooting_steps : Option (List String) := none
  source_question : Option String := none
  is_emergency_content : Option Bool := none
deriving DecidableEq

/-- One question/answer pair of the knowledge base; `none` = key absent
(a pair lacking `"question"` is skipped by the engine). -/
structure QA where
  question : Option String := none
  answer : Option String := none
deriving DecidableEq

/-- One category record of the knowledge base; `questions = none` models a
category dict lacking the `"questions"` key (skipped by the engine). -/
structure CategoryFact where
  category : Option String := none
  questions : Option (List QA) := none
deriving DecidableEq

/-- The optional metrics dict: the three numeric keys the engine reads. -/
structure SystemMetrics where
  cpu_temp : Option ℚ := none
  gpu_temp : Option ℚ := none
  memory_usage : Option ℚ := none
deriving DecidableEq

/-- The flat `{question, answer, category}` record handed to the rules layer. -/
structure FlatFact where
  question : String
  answer : String
  category : String
deriving DecidableEq

/-! ## `knowledge/rules.py` -/

/-- `hardware_issue_advice` of `knowledge/rules.py`. -/
def hardware_issue_advice (fact : FlatFact) (_system_metrics : Option SystemMetrics) :
    List String :=
  let question := pyLower fact.question
  (if ["overheat", "overheating", "temperature", "hot", "thermal", "cooling", "warm"].any
      (fun w => strContains question w) then
    ["🔴 Check CPU/GPU temperatures using monitoring software like HWMonitor",
     "🧹 Clean dust from fans, heatsinks, and vents regularly",
     "💨 Ensure proper case airflow and ventilation",
     "🔧 Consider reapplying thermal paste if temperatures remain high"] else []) ++
  (if ["fan", "noisy", "noise", "loud", "whirring", "grinding", "buzzing"].any
      (fun w => strContains question w) then
    ["🎯 Identify which fan is making noise (CPU, GPU, case, PSU)",
     "🧼 Clean the noisy fan and check for obstructions",
     "⚙️ Check fan speed settings in BIOS/UEFI"] else []) ++
  (if ["slow", "performance", "lag", "bottleneck", "sluggish", "speed"].any
      (fun w => strContains question w) then
    ["📊 Monitor resource usage in Task Manager (CPU, RAM, disk, GPU)",
     "🔄 Update drivers, especially graphics and chipset",
     "💾 Consider SSD upgrade for significant speed improvement"] else []) ++
  (if ["power", "shutdown", "restart", "boot", "turn on", "won't start"].any
      (fun w => strContains question w) then
    ["🔌 Check all power connections and cables",
     "⚡ Test with different power outlet and cable",
     "🔋 Verify power supply unit (PSU) health and capacity"] else []) ++
  (if ["ram", "memory", "bsod", "blue screen", "bluescreen", "crash"].any
      (fun w => strContains question w) then
    ["🧪 Run Windows Memory Diagnostic or MemTest86",
     "🔧 Reseat RAM modules in their slots",
     "⚡ Check RAM compatibility and running at correct speeds"] else []) ++
  (if ["screen", "display", "monitor", "lines", "distorted", "flickering"].any
      (fun w => strContains question w) then
    ["🖥️ Check video cable connections and try different cables",
     "🔄 Update graphics drivers to latest version",
     "⚙️ Test with different monitor or input source"] else []) ++
  (if ["burn", "burning", "smoke", "spark", "fire", "water", "spilled"].any
      (fun w => strContains question w) then
    ["🚨 IMMEDIATELY shut down and unplug computer",
     "🔥 Do not attempt to use until professionally inspected",
     "💧 For liquid spills: remove battery if possible, dry thoroughly"] else [])

/-- `software_issue_advice` of `knowledge/rules.py`. -/
def software_issue_advice (fact : FlatFact) (_system_metrics : Option SystemMetrics) :
    List String :=
  let question := pyLower fact.question
  (if ["install", "setup", "compatibility", "won't install", "installation"].any
      (fun w => strContains question w) then
    ["🛡️ Run installer as Administrator",
     "🔒 Temporarily disable antivirus during installation",
     "📋 Check system requirements and compatibility"] else []) ++
  (if ["crash", "freeze", "not responding", "hang", "stopped working"].any
      (fun w => strContains question w) then
    ["📱 Update software to latest version",
     "🔧 Check for and install available Windows updates",
     "🔄 Run system file checker: sfc /scannow"] else []) ++
  (if ["virus", "malware", "infected", "ransomware", "trojan", "hacked"].any
      (fun w => strContains question w) then
    ["🚫 Disconnect from internet immediately",
     "🛡️ Run full scan with updated antivirus",
     "🔒 Boot in Safe Mode for thorough cleaning"] else []) ++
  (if ["update", "upgrade", "windows update", "failed update"].any
      (fun w => strContains question w) then
    ["🔄 Run Windows Update Troubleshooter",
     "🧹 Clear update cache and restart update service",
     "📥 Manually download updates from Microsoft Catalog"] else [])

/-- `networking_issue_advice` of `knowledge/rules.py`. -/
def networking_issue_advice (fact : FlatFact) (_system_metrics : Option SystemMetrics) :
    List String :=
  let question := pyLower fact.question
  (if ["wifi", "wireless", "connection", "disconnect", "router"].any
      (fun w => strContains question w) then
    ["📶 Restart router and modem",
     "🔧 Update network adapter drivers",
     "🎛️ Change WiFi channel to reduce interference"] else []) ++
  (if ["slow internet", "bandwidth", "download speed", "streaming", "speed"].any
      (fun w => strContains question w) then
    ["📊 Run speed test at different times of day",
     "🔍 Check for background downloads or updates",
     "🔄 Restart networking equipment"] else []) ++
  (if ["no internet", "can't connect", "dns", "proxy", "offline"].any
      (fun w => strContains question w) then
    ["🌐 Flush DNS cache: ipconfig /flushdns",
     "🔌 Reset network settings to default",
     "📋 Renew IP address: ipconfig /renew"] else [])

/-- `storage_issue_advice` of `knowledge/rules.py`. -/
def storage_issue_advice (fact : FlatFact) (_system_metrics : Option SystemMetrics) :
    List String :=
  let question := pyLower fact.question
  (if ["disk full", "storage", "space", "cleanup", "low space"].any
      (fun w => strContains question w) then
    ["🧹 Run Disk Cleanup utility",
     "📁 Move large files to external storage or cloud",
     "🗑️ Uninstall unused programs and games"] else []) ++
  (if ["hard drive", "hdd", "ssd", "clicking", "noise", "failing"].any
      (fun w => strContains question w) then
    ["💾 Backup important data immediately",
     "🔍 Run CHKDSK to check for disk errors",
     "📊 Monitor drive health with SMART tools"] else []) ++
  (if ["recover", "deleted", "formatted", "lost data", "files gone"].any
      (fun w => strContains question w) then
    ["🚫 Stop using the drive immediately",
     "🔧 Use data recovery software promptly",
     "💾 Restore from backup if available"] else [])

/-- `gaming_issue_advice` of `knowledge/rules.py`. -/
def gaming_issue_advice (fact : FlatFact) (_system_metrics : Option SystemMetrics) :
    List String :=
  let question := pyLower fact.question
  (if ["fps", "frame rate", "lag", "stutter", "gaming performance"].any
      (fun w => strContains question w) then
    ["🎮 Update graphics drivers to latest version",
     "⚙️ Lower in-game graphics settings",
     "🔧 Close background applications while gaming"] else []) ++
  (if ["game crash", "won't launch", "directx", "opengl", "not starting"].any
      (fun w => strContains question w) then
    ["🔄 Verify game file integrity through platform (Steam/Epic)",
     "📋 Install latest DirectX and Visual C++ redistributables",
     "🛡️ Add game to antivirus exceptions list"] else [])

/-- The comparison core used by the advice deduplication: the advice line
without its leading whitespace-delimited token (the icon), joined by single
spaces; an all-whitespace line stands for itself. -/
def content_core (item : String) : String :=
  match pySplit item with
  | [] => item
  | _ :: rest => " ".intercalate rest

/-- The order-preserving dedup loop of `execute_all_rules`, with the set of
already-seen cores threaded as a list. -/
def dedupAdviceAux : List String → List String → List String
  | [], _ => []
  | i :: t, seen =>
    let c := content_core i
    if c ∈ seen then dedupAdviceAux t seen
    else i :: dedupAdviceAux t (c :: seen)

/-- `execute_all_rules` of `knowledge/rules.py`: run the five rules in order,
deduplicate by icon-stripped text, keep the first 8 lines. -/
def execute_all_rules (fact : FlatFact) (system_metrics : Option SystemMetrics) :
    List String :=
  let advice_list :=
    hardware_issue_advice fact system_metrics ++
    software_issue_advice fact system_metrics ++
    networking_issue_advice fact system_metrics ++
    storage_issue_advice fact system_metrics ++
    gaming_issue_advice fact system_metrics
  (dedupAdviceAux advice_list []).take 8

/-- `get_priority_level` of `knowledge/rules.py`. -/
def get_priority_level (fact : FlatFact) (_system_metrics : Option SystemMetrics) :
    String :=
  let question := pyLower fact.question
  if ["fire", "smoke", "spark", "burn", "burning", "water", "spilled", "electrical",
      "hazard"].any (fun w => strContains question w) then "CRITICAL"
  else if ["data loss", "backup", "recovery", "ransomware", "virus", "hacked",
      "compromised", "won't boot"].any (fun w => strContains question w) then "HIGH"
  else if ["blue screen", "crash", "freeze", "not working", "error"].any
      (fun w => strContains question w) then "MEDIUM"
  else if ["slow", "performance", "optimization", "cleanup", "maintenance"].any
      (fun w => strContains question w) then "LOW"
  else "NORMAL"

/-- `generate_troubleshooting_steps` of `knowledge/rules.py`. -/
def generate_troubleshooting_steps (fact : FlatFact) : List String :=
  let question := pyLower fact.question
  let steps :=
    ["1. 🔄 Restart the computer and test again",
     "2. 📋 Check for recent changes or updates",
     "3. 🔍 Look for specific error messages or codes"] ++
    (if ["hardware", "component", "device", "peripheral", "usb", "display"].any
        (fun w => strContains question w) then
      ["4. 🔌 Check all physical connections",
       "5. 🧹 Clean components and ensure proper ventilation",
       "6. 🔧 Update device drivers and firmware"] else []) ++
    (if ["software", "program", "application", "game", "install", "crash"].any
        (fun w => strContains question w) then
      ["4. 🛡️ Run as Administrator",
       "5. 🔒 Check antivirus and firewall settings",
       "6. 📥 Reinstall or repair the application"] else []) ++
    (if ["network", "wifi", "internet", "router", "connection"].any
        (fun w => strContains question w) then
      ["4. 🌐 Restart router and modem",
       "5. 🔧 Update network adapter drivers",
       "6. 📶 Test with Ethernet cable if possible"] else [])
  steps.take 6

/-- `get_preventive_maintenance_advice` of `knowledge/rules.py`. -/
def get_preventive_maintenance_advice (fact : FlatFact) : List String :=
  let question := pyLower fact.question
  (if ["overheat", "fan", "noise", "dust", "clean"].any
      (fun w => strContains question w) then
    ["• Clean dust every 3-6 months",
     "• Monitor temperatures regularly",
     "• Ensure proper ventilation"] else []) ++
  (if ["slow", "crash", "update", "virus"].any
      (fun w => strContains question w) then
    ["• Keep system and drivers updated",
     "• Run regular antivirus scans",
     "• Clean temporary files weekly"] else []) ++
  (if ["backup", "recovery", "lost", "deleted"].any
      (fun w => strContains question w) then
    ["• Maintain regular backups",
     "• Use cloud storage for important files",
     "• Test backup restoration periodically"] else [])

/-! ## `reasoning/engine.py`: scoring helpers -/

/-- `calculate_similarity`: Jaccard index of the word sets (0 when either is
empty). -/
def calculate_similarity (a b : String) : ℚ :=
  let wa := wordFinset a
  let wb := wordFinset b
  if wa ≠ ∅ ∧ wb ≠ ∅ then qdiv ((wa ∩ wb).card : ℚ) ((wa ∪ wb).card : ℚ) else 0

/-- Stopword list of `calculate_keyword_match`. -/
def keyword_stop : List String :=
  ["the", "a", "an", "to", "my", "me", "it", "is", "on", "in", "with", "and", "for",
   "i", "of", "or", "at", "this", "that", "from"]

/-- `calculate_keyword_match`: fraction of the query's non-stopword words of
length > 2 that occur among the entry question's such words, capped at 1. -/
def calculate_keyword_match (q fq : String) : ℚ :=
  let qw := ((pySplit q).filter (fun w => w ∉ keyword_stop ∧ w.length > 2)).toFinset
  let fw := ((pySplit fq).filter (fun w => w ∉ keyword_stop ∧ w.length > 2)).toFinset
  if qw = ∅ then 0 else min (qdiv ((qw ∩ fw).card : ℚ) ((qw.card : ℚ))) 1

/-- `is_emergency_content`: the answer text contains hazard-response phrasing
(compared upper-cased). -/
def is_emergency_content (content : String) : Bool :=
  let emergency_phrases :=
    ["IMMEDIATELY shut down", "unplug power", "remove battery",
     "drain liquid", "do not use heat to dry", "let dry completely",
     "liquid spill", "water damage", "wet laptop"]
  let content_upper := pyUpper content
  emergency_phrases.any (fun phrase => strContains content_upper (pyUpper phrase))

/-- Stopword list of `extract_main_keywords`. -/
def emk_stop_words : List String :=
  ["the", "a", "an", "to", "my", "me", "it", "is", "on", "in", "with",
   "and", "for", "i", "of", "or", "at", "this", "that", "from", "what",
   "why", "how", "when", "where", "can", "could", "would", "should",
   "please", "help", "computer", "laptop", "pc", "desktop", "won't", "wont"]

/-- `extract_main_keywords`: lower-case, split, drop stopwords and short
words, strip `?.!` from what remains. -/
def extract_main_keywords (question : String) : List String :=
  let words := pySplit (pyLower question)
  (words.filter (fun w => w ∉ emk_stop_words ∧ w.length > 2)).map
    (stripChars ['?', '.', '!'])

/-- `calculate_relevance_score`: the fraction of the query keywords occurring
in the match text (0 when there are no keywords). -/
def calculate_relevance_score (question_keywords : List String) (match_text : String) : ℚ :=
  if question_keywords.isEmpty then 0
  else qdiv ((question_keywords.countP (fun k => strContains match_text k)) : ℚ)
    ((question_keywords.length : ℚ))

/-- `calculate_query_relevance`: match score, +0.3 for power-failure overlap,
−0.4 for hazard content on a hazard-free query, clamped into [0, 1]. -/
def calculate_query_relevance (m : Answer) (query : String) : ℚ :=
  let relevance := m.match_score.getD 0
  let power_queries := ["won't turn on", "no power", "dead", "not powering on", "wont turn on"]
  let relevance :=
    if power_queries.any (fun p => strContains query p) ∧
       (strContains (pyLower m.content) "power" ∨
        strContains (pyLower (m.source_question.getD "")) "power")
    then qadd relevance (mkRat 3 10) else relevance
  let relevance :=
    if m.is_emergency_content.getD false ∧
       ¬ (["water", "liquid", "spill", "wet", "smoke", "fire"].any
          (fun indicator => strContains query indicator))
    then qsub relevance (mkRat 4 10) else relevance
  max 0 (min 1 relevance)

/-- `is_emergency_context_appropriate`: hazard-flavoured content is allowed
only for a hazard-flavoured query, and a water query must not surface fire
content nor vice versa. -/
def is_emergency_context_appropriate (m : Answer) (query : String) : Bool :=
  if ¬ m.is_emergency_content.getD false then true
  else
    let emergency_indicators :=
      ["water", "liquid", "spill", "wet", "smoke", "fire", "spark", "burning"]
    let query_has_emergency := emergency_indicators.any (fun i => strContains query i)
    if query_has_emergency then
      let match_content := pyLower m.content
      if strContains query "water" ∧ strContains match_content "fire" then false
      else if strContains query "fire" ∧ strContains match_content "water" then false
      else query_has_emergency
    else query_has_emergency

/-- Python truthiness of an optional list value. -/
def truthyList (o : Option (List String)) : Bool := !(o.getD []).isEmpty

/-- `should_enhance_with_symptom_advice`: whether a symptom-advice record adds
value next to the retained knowledge-base matches. -/
def should_enhance_with_symptom_advice (kb_matches : List Answer) (symptom_advice : Answer) :
    Bool :=
  if kb_matches.length ≥ 3 then false
  else if kb_matches.any (fun kb_match =>
      let kb_content := kb_match.content
      let is_generic :=
        strContains (pyLower kb_content) "most commonly caused by" ∨
        strContains (pyLower kb_content) "usually due to" ∨
        strContains (pyLower kb_content) "typically caused by" ∨
        strContains (pyLower kb_content) "this is often" ∨
        kb_content.length < 150
      is_generic ∧ symptom_advice.confidence = "high") then true
  else
    let symptom_content := pyLower symptom_advice.content
    kb_matches.any (fun kb_match =>
      let kb_content := pyLower kb_match.content
      (truthyList symptom_advice.troubleshooting_steps ∧
        ¬ truthyList kb_match.troubleshooting_steps) ∨
      (symptom_content.length > kb_content.length + 100) ∨
      (symptom_advice.priority ∈ ["CRITICAL", "HIGH"]) ∨
      ((strContains symptom_content "driver" ∧ ¬ strContains kb_content "driver") ∨
       (strContains symptom_content "thermal" ∧ ¬ strContains kb_content "thermal") ∨
       (strContains symptom_content "temperature" ∧ ¬ strContains kb_content "temperature")))

/-! ## Emergency detection (word-boundary regex scan) -/

/-- A regex word character (`\w` over the ASCII range the engine handles). -/
def isWordChar (c : Char) : Bool := c.isAlphanum || c = '_'

/-- A `\b` boundary holds before the current position given the previous
character (`none` = start of string). -/
def boundaryFree : Option Char → Bool
  | none => true
  | some c => !isWordChar c

/-- Match the (lower-case) pattern characters against the head of the string,
case-insensitively; return what remains on success. -/
def matchPatAt : List Char → List Char → Option (List Char)
  | [], rest => some rest
  | _ :: _, [] => none
  | p :: ps, c :: cs => if c.toLower = p then matchPatAt ps cs else none

/-- Whether the pattern matches here with a `\b` boundary after it. -/
def matchHere (pat s : List Char) : Bool :=
  match matchPatAt pat s with
  | some rest => boundaryFree rest.head?
  | none => false

/-- Scan for a `\b pat \b` match, tracking the previous character. -/
def boundarySearchAux (pat : List Char) : Option Char → List Char → Bool
  | prev, s =>
    if boundaryFree prev && matchHere pat s then true
    else
      match s with
      | [] => false
      | c :: cs => boundarySearchAux pat (some c) cs

/-- `re.search(r'\b…\b', q, re.IGNORECASE)` for a literal pattern. -/
def regexBoundarySearch (pat q : String) : Bool :=
  boundarySearchAux pat.data none q.data

/-- The fixed emergency pattern list of `check_emergency_situation` (each is
wrapped in `\b…\b` in the source). -/
def emergency_patterns : List String :=
  ["smoke", "fire", "spark", "burning smell",
   "spilled water", "liquid", "wet laptop",
   "dropped in water", "electrical fire", "smoking",
   "flame", "burned", "electrical hazard"]

/-- The fixed CRITICAL/perfect emergency answer of `check_emergency_situation`. -/
def emergencyAnswer : Answer :=
  { type := "emergency"
    content := "🚨 CRITICAL SAFETY EMERGENCY - IMMEDIATE ACTION REQUIRED! 🚨\n\n" ++
      "• UNPLUG FROM POWER IMMEDIATELY\n" ++
      "• DO NOT TOUCH if smoking or sparking\n" ++
      "• NO WATER on electrical fires\n" ++
      "• If liquid spilled: power off → remove battery → dry 72+ hours\n" ++
      "• Contact professional technician before reuse"
    priority := "CRITICAL"
    confidence := "perfect"
    rule_advice := some
      ["UNPLUG POWER CORD NOW",
       "Move away from flammable materials",
       "Call emergency services if fire develops",
       "Do not attempt to use until professionally inspected"]
    troubleshooting_steps := some
      ["1. SAFETY FIRST - Unplug immediately",
       "2. Evacuate area if heavy smoke",
       "3. Contact professional repair service",
       "4. Do not attempt DIY repair on electrical hazards"] }

/-- `check_emergency_situation`: word-boundary scan of the fixed hazard
patterns; the first match yields the fixed emergency answer. -/
def check_emergency_situation (q : String) : Option Answer :=
  if emergency_patterns.any (fun pat => regexBoundarySearch pat q) then
    some emergencyAnswer
  else none

/-! ## The symptom registry (`SYMPTOM_DEFINITIONS`) -/

/-- One symptom definition: literal phrase patterns, an optional extra
predicate over the query's word set, and an optional expert-advice template
(`none` for the reserved `emergency` entry). -/
structure SymptomDef where
  patterns : List String
  additional_check : Option (List String → Bool) := none
  expert_advice : Option Answer

/-- `SYMPTOM_DEFINITIONS`, in insertion order (the Python dict preserves it,
and the order decides the main symptom of the final filtering pass). -/
def SYMPTOM_DEFINITIONS : List (String × SymptomDef) :=
  [("random_shutdown",
    { patterns :=
        ["shut down", "shutting down", "turns off", "powers off", "randomly off",
         "sudden shutdown", "shuts itself off", "random restart", "restarts randomly",
         "rebooting randomly", "shuts down while gaming", "turns off during game"]
      expert_advice := some
        { type := "expert_diagnosis"
          content := "Random shutdowns are almost always caused by:\n" ++
            "1. Overheating → CPU/GPU hits 95–105°C and system protects itself\n" ++
            "2. Failing power supply (common on 3+ year old PCs)\n" ++
            "3. Bad RAM or motherboard VRMs"
          category := some "Power / Thermal"
          confidence := "high"
          priority := "HIGH"
          rule_advice := some
            ["Download HWMonitor or Core Temp → check temps under load",
             "Clean ALL dust from fans and heatsinks (90% of cases fixed here)",
             "Repaste CPU/GPU if system is older than 3 years",
             "Test with a known-good PSU if possible",
             "Run MemTest86 overnight (free)",
             "Check Event Viewer → Kernel-Power Event ID 41"] } }),
   ("no_power",
    { patterns :=
        ["won't turn on", "no power", "completely dead", "not powering on",
         "black screen no power", "no signs of life", "wont turn on", "laptop wont turn on"]
      additional_check := some (fun words => words.contains "dead")
      expert_advice := some
        { type := "expert_diagnosis"
          content := "PC completely dead? Follow this exact order:"
          category := some "Power Failure"
          confidence := "high"
          priority := "HIGH"
          rule_advice := some
            ["Check power cable & wall socket first",
             "Hold power button 30–60 seconds (drain flea power)",
             "Reseat RAM and CMOS battery",
             "Check front panel connectors",
             "Test with only motherboard + CPU + 1 RAM stick + PSU"]
          troubleshooting_steps := some
            ["1. Verify power cable and outlet work",
             "2. Drain residual power (hold power button 30+ seconds)",
             "3. Check internal power connections",
             "4. Test with minimal hardware configuration",
             "5. Try known-good PSU if available"] } }),
   ("slow",
    { patterns := ["slow", "lag", "laggy", "sluggish", "takes forever", "very slow"]
      expert_advice := some
        { type := "expert_diagnosis"
          content := "System slow? 95% of cases fixed by one of these:"
          category := some "Performance"
          confidence := "high"
          priority := "MEDIUM"
          rule_advice := some
            ["Still on HDD → upgrade to SSD = 10x faster",
             "Less than 16GB RAM → upgrade to 32GB",
             "Open Task Manager → kill junk processes",
             "Run Malwarebytes full scan",
             "Disable startup programs",
             "Clean disk + empty %temp%"] } }),
   ("high_cpu",
    { patterns :=
        ["100%", "high cpu", "cpu usage", "fans spinning fast", "fan spinning fast",
         "fans loud constantly", "fans loud constantly"]
      expert_advice := some
        { type := "expert_diagnosis"
          content := "High CPU usage detected:\n" ++
            "• Background processes consuming resources\n" ++
            "• Malware or cryptocurrency miners\n" ++
            "• Driver conflicts or system file corruption\n" ++
            "• Insufficient RAM causing swap thrashing"
          category := some "Performance"
          confidence := "high"
          priority := "MEDIUM"
          rule_advice := some
            ["Open Task Manager → Sort by CPU → End high-usage processes",
             "Run full antivirus scan with Malwarebytes",
             "Update all drivers from manufacturer website",
             "Run: sfc /scannow to repair system files",
             "Check for Windows updates"]
          troubleshooting_steps := some
            ["1. Identify process causing high CPU in Task Manager",
             "2. Run antivirus/malware scan",
             "3. Update drivers and Windows",
             "4. Check for overheating issues",
             "5. Consider clean Windows reinstall if persistent"] } }),
   ("crashing",
    { patterns := ["crash", "crashing", "freezing", "frozen", "freeze", "hang", "not responding"]
      expert_advice := some
        { type := "expert_diagnosis"
          content := "Crashes/freezes = usually one of these:"
          category := some "Stability"
          confidence := "high"
          priority := "HIGH"
          rule_advice := some
            ["Update GPU + chipset drivers (DDU clean install)",
             "Run Windows Memory Diagnostic overnight",
             "Check temperatures (overheating = crash)",
             "sfc /scannow + DISM /Online /Cleanup-Image /RestoreHealth",
             "Clean Windows install if persistent"] } }),
   ("overheating",
    { patterns := ["hot", "overheat", "overheating", "burning", "too hot", "thermal throttle"]
      expert_advice := some
        { type := "expert_diagnosis"
          content := "OVERHEATING DETECTED → PERMANENT DAMAGE IMMINENT:"
          category := some "Thermal Emergency"
          confidence := "high"
          priority := "CRITICAL"
          rule_advice := some
            ["STOP USING NOW → clean dust from ALL fans/heatsinks",
             "Download HWMonitor → check temps (90°C+ = danger)",
             "Repaste CPU/GPU if 2+ years old",
             "Elevate laptop / use cooling pad",
             "Undervolt with ThrottleStop/Intel XTU"] } }),
   ("screen_issue",
    { patterns :=
        ["black screen", "no display", "flickering", "glitchy screen", "screen glitch",
         "lines on screen", "artifacts", "distorted screen"]
      additional_check := some (fun words =>
        ["screen", "display", "monitor"].any (fun word => words.contains word))
      expert_advice := some
        { type := "expert_diagnosis"
          content := "Display problem detected:"
          category := some "Display"
          confidence := "high"
          priority := "HIGH"
          rule_advice := some
            ["Try different cable/monitor",
             "Boot in Safe Mode (driver issue?)",
             "DDU + reinstall GPU drivers",
             "Reseat GPU (desktop)",
             "Shine flashlight on screen → faint image? = backlight dead"] } }),
   ("disk_full",
    { patterns := ["no space", "disk full", "storage full", "out of space"]
      additional_check := some (fun words => words.contains "full")
      expert_advice := some
        { type := "expert_diagnosis"
          content := "Low disk space causes:\n" ++
            "• System slowdown and freezing\n" ++
            "• Inability to install updates\n" ++
            "• Program crashes and data loss risk"
          category := some "Storage"
          confidence := "high"
          priority := "MEDIUM"
          rule_advice := some
            ["Run Disk Cleanup as Administrator",
             "Delete temporary files in %temp%",
             "Uninstall unused programs",
             "Move large files to external storage",
             "Consider upgrading to larger SSD"] } }),
   ("drive_noise",
    { patterns := ["clicking", "grinding"]
      expert_advice := some
        { type := "expert_diagnosis"
          content := "🚨 CRITICAL: Clicking/grinding sounds indicate HARD DRIVE FAILURE!\n" ++
            "• Mechanical hard drive is physically failing\n" ++
            "• Immediate data backup required\n" ++
            "• Drive will completely fail soon"
          category := some "Storage Emergency"
          confidence := "high"
          priority := "CRITICAL"
          rule_advice := some
            ["BACKUP IMPORTANT DATA IMMEDIATELY",
             "Do NOT run disk repair tools",
             "Replace drive as soon as possible",
             "Use SSD replacement for better reliability",
             "Consider professional data recovery if critical data"] } }),
   ("no_internet",
    { patterns :=
        ["no internet", "wifi not working", "can't connect", "limited connectivity", "no wifi"]
      expert_advice := some
        { type := "expert_diagnosis"
          content := "Network connectivity issues:\n" ++
            "• Router/modem problems\n" ++
            "• Driver issues\n" ++
            "• DNS or IP configuration\n" ++
            "• Hardware failure"
          category := some "Network"
          confidence := "high"
          priority := "MEDIUM"
          rule_advice := some
            ["Restart router and modem",
             "Run Windows Network Troubleshooter",
             "Update network adapter drivers",
             "Try: ipconfig /release → ipconfig /renew",
             "Reset TCP/IP stack: netsh int ip reset"] } }),
   ("keyboard_issue",
    { patterns := []
      additional_check := some (fun words =>
        words.contains "keyboard" &&
        ["not", "working", "stuck", "broken"].any (fun word => words.contains word))
      expert_advice := some
        { type := "expert_diagnosis"
          content := "Keyboard problems:\n" ++
            "• Driver or software conflict\n" ++
            "• Physical damage or liquid spill\n" ++
            "• Connection issues (for desktop keyboards)"
          category := some "Peripheral"
          confidence := "medium"
          priority := "MEDIUM"
          rule_advice := some
            ["Test with On-Screen Keyboard",
             "Update keyboard drivers",
             "Try different USB port",
             "Check for physical damage or debris",
             "Test keyboard on another computer"] } }),
   ("mouse_issue",
    { patterns := []
      additional_check := some (fun words =>
        (["mouse", "cursor"].any (fun word => words.contains word)) &&
        (["not", "working", "jumping", "broken"].any (fun word => words.contains word)))
      expert_advice := some
        { type := "expert_diagnosis"
          content := "Mouse problems typically:\n" ++
            "• Driver issues\n" ++
            "• Sensor blockage or surface issues\n" ++
            "• Wireless connection problems\n" ++
            "• Physical damage"
          category := some "Peripheral"
          confidence := "medium"
          priority := "MEDIUM"
          rule_advice := some
            ["Clean mouse sensor with compressed air",
             "Update mouse drivers",
             "Try different surface or mouse pad",
             "Check wireless receiver connection",
             "Test with different USB port"] } }),
   ("no_sound",
    { patterns := ["no sound", "audio not working", "headphones not working", "speakers silent"]
      expert_advice := some
        { type := "expert_diagnosis"
          content := "Audio issues common causes:\n" ++
            "• Driver conflicts or updates needed\n" ++
            "• Wrong playback device selected\n" ++
            "• Cable or connection problems\n" ++
            "• Audio service not running"
          category := some "Audio"
          confidence := "high"
          priority := "LOW"
          rule_advice := some
            ["Check volume mixer and device selection",
             "Update audio drivers from manufacturer site",
             "Run Windows Audio Troubleshooter",
             "Check physical connections and cables",
             "Restart Windows Audio service"] } }),
   ("mic_issue",
    { patterns := []
      additional_check := some (fun words =>
        words.contains "microphone" || (words.contains "mic" && words.contains "not"))
      expert_advice := some
        { type := "expert_diagnosis"
          content := "Microphone not working:\n" ++
            "• Privacy settings blocking access\n" ++
            "• Driver issues\n" ++
            "• Wrong input device selected\n" ++
            "• Hardware failure"
          category := some "Audio"
          confidence := "medium"
          priority := "LOW"
          rule_advice := some
            ["Check microphone privacy settings in Windows",
             "Update audio drivers",
             "Test microphone in Sound settings",
             "Check app-specific microphone permissions",
             "Try different microphone if available"] } }),
   ("battery_issue",
    { patterns := []
      additional_check := some (fun words =>
        words.contains "battery" &&
        ["draining", "not charging", "swollen"].any (fun word => words.contains word))
      expert_advice := some
        { type := "expert_diagnosis"
          content := "Battery problems:\n" ++
            "• Normal wear (2-3 year lifespan)\n" ++
            "• Charging circuit failure\n" ++
            "• Software/driver issues\n" ++
            "• ⚠️ SWOLLEN BATTERY = SAFETY HAZARD"
          category := some "Power"
          confidence := "high"
          priority := "HIGH"
          rule_advice := some
            ["Run battery health report: powercfg /batteryreport",
             "Update BIOS and chipset drivers",
             "Calibrate battery (drain fully, charge fully)",
             "⚠️ If swollen: stop using immediately and replace"] } }),
   ("bsod",
    { patterns := ["blue screen", "bsod", "stop code", "critical process died"]
      expert_advice := some
        { type := "expert_diagnosis"
          content := "Blue Screen of Death analysis:\n" ++
            "• Driver conflicts (most common)\n" ++
            "• Hardware failure (RAM, storage)\n" ++
            "• System file corruption\n" ++
            "• Overheating or power issues"
          category := some "System Stability"
          confidence := "high"
          priority := "HIGH"
          rule_advice := some
            ["Note the STOP CODE for specific diagnosis",
             "Update ALL drivers, especially GPU and chipset",
             "Run Windows Memory Diagnostic",
             "Check Event Viewer for detailed errors",
             "Run: sfc /scannow and DISM commands"] } }),
   ("boot_loop",
    { patterns := ["boot loop", "restarting loop", "infinite restart", "keeps restarting"]
      expert_advice := some
        { type := "expert_diagnosis"
          content := "Boot looping indicates:\n" ++
            "• Corrupt system files or updates\n" ++
            "• Driver conflicts during boot\n" ++
            "• Hardware component failure\n" ++
            "• Malware or system modification"
          category := some "Boot Issues"
          confidence := "high"
          priority := "HIGH"
          rule_advice := some
            ["Boot into Safe Mode or Windows Recovery",
             "Use System Restore to previous point",
             "Run Startup Repair from recovery environment",
             "Check for recently installed hardware/software",
             "Last resort: Reset Windows keeping files"] } }),
   ("boot_failure",
    { patterns :=
        ["won't boot", "wont boot", "won't start", "wont start",
         "stuck on logo", "stuck at logo", "frozen on logo", "stuck on motherboard logo",
         "asus logo", "dell logo", "hp logo", "lenovo logo", "msi logo",
         "stuck in booting", "stuck booting", "stuck during boot", "stuck while booting",
         "stuck on loading", "loading forever", "circle spinning forever", "dots spinning",
         "automatic repair", "preparing automatic repair", "diagnosing your pc",
         "hung on boot", "hangs on boot", "freezes during boot", "black screen after logo",
         "no boot device", "boot device not found", "bootmgr is missing"]
      expert_advice := some
        { type := "expert_diagnosis"
          content := "Windows won't boot → follow this exact order:"
          category := some "Boot Issues"
          confidence := "high"
          priority := "CRITICAL"
          rule_advice := some
            ["Force power off 3 times → enter Recovery",
             "Startup Repair → System Restore",
             "Command Prompt → bootrec /fixmbr → /fixboot → /rebuildbcd",
             "If SSD → check cable or test in another PC",
             "Reseat RAM + reset BIOS",
             "Last resort → Reset Windows (keep files) or clean install"] } }),
   ("audio_jack_issue",
    { patterns :=
        ["headphone jack not working", "earphone port not working", "audio jack not working",
         "headphones not detected", "no sound in headphones", "plugged in but sound from speakers",
         "headphone socket broken", "3.5mm jack dead"]
      expert_advice := some
        { type := "expert_diagnosis"
          content := "Headphone jack dead → 95% fixed with this:"
          category := some "Audio"
          confidence := "high"
          priority := "MEDIUM"
          rule_advice := some
            ["Plug/unplug 10 times rapidly",
             "Clean jack with toothpick + alcohol",
             "Restart twice",
             "Download REAL driver from laptop brand",
             "Disable audio enhancements",
             "Still dead → jack broken → use USB/Bluetooth adapter"] } }),
   ("usb_port_issue",
    { patterns :=
        ["usb port not working", "usb not recognized", "usb device not detected",
         "usb ports dead", "usb-c not working", "charging port not working"]
      expert_advice := some
        { type := "expert_diagnosis"
          content := "USB ports not working:"
          category := some "Ports"
          confidence := "high"
          priority := "MEDIUM"
          rule_advice := some
            ["Try all ports + different devices",
             "Device Manager → uninstall all USB controllers → restart",
             "Update chipset drivers",
             "Disable USB power saving",
             "Still dead → USB controller failed"] } }),
   ("bluetooth_issue",
    { patterns :=
        ["bluetooth not working", "bluetooth disappeared", "can't find bluetooth",
         "airpods won't connect", "bluetooth device not connecting"]
      expert_advice := some
        { type := "expert_diagnosis"
          content := "Bluetooth missing or not connecting:"
          category := some "Connectivity"
          confidence := "high"
          priority := "MEDIUM"
          rule_advice := some
            ["Toggle Bluetooth off/on",
             "Device Manager → show hidden → uninstall Bluetooth",
             "Restart twice",
             "Update Bluetooth + chipset drivers from manufacturer",
             "Run Bluetooth troubleshooter"] } }),
   ("touchpad_issue",
    { patterns :=
        ["touchpad not working", "laptop mouse pad dead", "touchpad frozen",
         "touchpad lagging", "gestures not working"]
      expert_advice := some
        { type := "expert_diagnosis"
          content := "Laptop touchpad not responding:"
          category := some "Peripheral"
          confidence := "high"
          priority := "MEDIUM"
          rule_advice := some
            ["Fn + F-key with touchpad icon",
             "Update Synaptics/ELAN driver from brand site",
             "Device Manager → uninstall touchpad → restart",
             "Still dead → ribbon cable loose or touchpad failed"] } }),
   ("charging_issue",
    { patterns :=
        ["not charging", "plugged in not charging", "battery stuck at", "charger not recognized"]
      expert_advice := some
        { type := "expert_diagnosis"
          content := "Laptop not charging:"
          category := some "Power"
          confidence := "high"
          priority := "HIGH"
          rule_advice := some
            ["Hold power 60s unplugged",
             "Try different charger",
             "Remove battery → plug in directly",
             "Update BIOS + chipset",
             "Battery >80% wear → replace",
             "Still not → charging circuit dead"] } }),
   ("swollen_battery",
    { patterns := ["battery swollen", "battery bulging", "trackpad popping up", "battery pushing"]
      expert_advice := some
        { type := "expert_diagnosis"
          content := "SWOLLEN BATTERY = FIRE/EXPLOSION RISK!"
          category := some "Safety Emergency"
          confidence := "high"
          priority := "CRITICAL"
          rule_advice := some
            ["STOP USING IMMEDIATELY",
             "Do not charge or puncture",
             "Remove battery carefully",
             "Store in cool place away from flammable items",
             "Replace with genuine battery only"] } }),
   ("emergency",
    { patterns := ["smoke", "fire", "spark", "burning", "water", "liquid", "wet"]
      expert_advice := none })]

/-- `extract_all_symptoms` over an explicit registry: evaluate every
registered symptom against the query (literal substring patterns, then the
optional word-set predicate), in registry order. -/
def extract_all_symptoms_in (registry : List (String × SymptomDef)) (q : String) :
    List (String × Bool) :=
  let q_lower := pyLower q
  let words := pySplit q_lower
  registry.map (fun nd =>
    (nd.1,
     nd.2.patterns.any (fun phrase => strContains q_lower phrase) ||
     (match nd.2.additional_check with
      | some check => check words
      | none => false)))

/-- `extract_all_symptoms` against the loaded `SYMPTOM_DEFINITIONS`. -/
def extract_all_symptoms (q : String) : List (String × Bool) :=
  extract_all_symptoms_in SYMPTOM_DEFINITIONS q

/-- Read a symptom flag from the extracted mapping (`symptoms.get(name, False)`). -/
def symGet (symptoms : List (String × Bool)) (name : String) : Bool :=
  ((symptoms.find? (fun nb => nb.1 = name)).map (fun nb => nb.2)).getD false

/-- Look a definition up in a registry by name. -/
def lookupSymptomDefIn (registry : List (String × SymptomDef)) (name : String) :
    Option SymptomDef :=
  (registry.find? (fun nd => nd.1 = name)).map (fun nd => nd.2)

/-- Look a definition up in the loaded registry by name. -/
def lookupSymptomDef (name : String) : Option SymptomDef :=
  lookupSymptomDefIn SYMPTOM_DEFINITIONS name

/-- The generic diagnosis answer of `master_generate_advice` (emitted when no
specific symptom matched). -/
def genericAdviceAnswer (original_question : String) : Answer :=
  { type := "expert_generic"
    content := "Based on your description — \"" ++ original_question ++
      "\" — here are the most likely causes and fixes:"
    category := some "General Diagnosis"
    confidence := "medium"
    priority := "MEDIUM"
    rule_advice := some
      ["Restart in Safe Mode to isolate software vs hardware",
       "Run Windows Memory Diagnostic",
       "Check Device Manager for yellow triangles",
       "Update all drivers from manufacturer site (not Windows Update)",
       "Run: sfc /scannow and DISM /Online /Cleanup-Image /RestoreHealth"]
    troubleshooting_steps := some
      ["1. Note exact error messages or behavior",
       "2. Try Safe Mode (hold Shift + Restart)",
       "3. Run hardware diagnostics if available",
       "4. Backup important data first"] }

/-- `master_generate_advice` over an explicit registry: re-check the
emergency flag, then emit a copy of the advice template of every detected
non-emergency symptom, falling back to the generic diagnosis answer. -/
def master_generate_advice_in (registry : List (String × SymptomDef))
    (symptoms : List (String × Bool)) (original_question : String)
    (q : String) (_metrics : Option SystemMetrics) : List Answer :=
  let emergency_advice :=
    if symGet symptoms "emergency" then check_emergency_situation q else none
  match emergency_advice with
  | some e => [e]
  | none =>
    let advice := symptoms.filterMap (fun nb =>
      if nb.2 && nb.1 ≠ "emergency" then
        match lookupSymptomDefIn registry nb.1 with
        | some d => d.expert_advice
        | none => none
      else none)
    if advice.isEmpty then [genericAdviceAnswer original_question] else advice

/-- `master_generate_advice` against the loaded `SYMPTOM_DEFINITIONS`. -/
def master_generate_advice (symptoms : List (String × Bool)) (original_question : String)
    (q : String) (metrics : Option SystemMetrics) : List Answer :=
  master_generate_advice_in SYMPTOM_DEFINITIONS symptoms original_question q metrics

/-- `generate_metric_advice`: threshold alerts from the metrics readings. -/
def generate_metric_advice (metrics : SystemMetrics) : List Answer :=
  (if metrics.cpu_temp.getD 0 > 92 then
    [{ type := "metric_alert"
       content := "🔥 CRITICAL: CPU temperature " ++ toString (metrics.cpu_temp.getD 0) ++
         "°C - Risk of permanent damage!"
       category := some "Thermal Emergency"
       confidence := "high"
       priority := "CRITICAL" }] else []) ++
  (if metrics.gpu_temp.getD 0 > 88 then
    [{ type := "metric_alert"
       content := "🌡️ GPU Overheating: " ++ toString (metrics.gpu_temp.getD 0) ++ "°C"
       category := some "Thermal"
       confidence := "high"
       priority := "HIGH" }] else []) ++
  (if metrics.memory_usage.getD 0 > 92 then
    [{ type := "metric_alert"
       content := "💾 RAM nearly full → Close apps or upgrade"
       category := some "Performance"
       confidence := "medium"
       priority := "HIGH" }] else [])

/-- `fallback_answer`: the single "need more information" answer. -/
def fallback_answer : Answer :=
  { type := "need_more_info"
    content := "I can definitely help you! To give the best advice, please tell me:\n" ++
      "• Exact error message (if any)\n" ++
      "• When did it start happening?\n" ++
      "• Laptop or desktop? Brand & model?\n" ++
      "• What changed recently (updates, new software, drop, spill)?"
    category := some "Clarification Needed"
    confidence := "high"
    priority := "MEDIUM" }

/-! ## Sorting and deduplication infrastructure

Python's `list.sort(key=…, reverse=True)` is a stable descending sort; any
stable sort computes the same list, so it is modelled by a stable insertion
sort: an element moves left past exactly those elements whose key is strictly
smaller. -/

/-- Strict lexicographic `<` on rational key tuples. -/
def keyLT : List ℚ → List ℚ → Bool
  | [], [] => false
  | [], _ :: _ => true
  | _ :: _, [] => false
  | a :: as, b :: bs => if a < b then true else if b < a then false else keyLT as bs

/-- Lexicographic `≤` on rational key tuples. -/
def keyLE : List ℚ → List ℚ → Bool
  | [], _ => true
  | _ :: _, [] => false
  | a :: as, b :: bs => if a < b then true else if b < a then false else keyLE as bs

/-- Stable descending insertion: `a` moves right past `b` exactly when `a`'s
key is strictly smaller, so ties keep their original order (as Python's
stable sort does). -/
def insDesc (key : α → List ℚ) (a : α) : List α → List α
  | [] => [a]
  | b :: t => if keyLT (key a) (key b) then b :: insDesc key a t else a :: b :: t

/-- Stable descending sort by `key` (extensionally Python's
`sort(key=…, reverse=True)`). -/
def sortDesc (key : α → List ℚ) : List α → List α
  | [] => []
  | a :: t => insDesc key a (sortDesc key t)

/-- `priority_order.get(p, 0)` of the final ranking. -/
def priorityRank (p : String) : ℚ :=
  if p = "CRITICAL" then 5 else if p = "HIGH" then 4 else if p = "MEDIUM" then 3
  else if p = "LOW" then 2 else if p = "NORMAL" then 1 else 0

/-- `confidence_order.get(c, 0)`. -/
def confidenceRank (c : String) : ℚ :=
  if c = "perfect" then 4 else if c = "high" then 3 else if c = "medium" then 2
  else if c = "low" then 1 else 0

/-- The key of the intermediate knowledge-match sort (relevance, confidence
tier, match score). -/
def kbSortKey (a : Answer) : List ℚ :=
  [a.relevance_score.getD 0, confidenceRank a.confidence, a.match_score.getD 0]

/-- The key of the final ranking (priority tier, relevance, confidence tier,
match score; absent scores count 0). -/
def finalSortKey (a : Answer) : List ℚ :=
  [priorityRank a.priority, a.relevance_score.getD 0, confidenceRank a.confidence,
   a.match_score.getD 0]

/-- The deduplication key: the answer's type together with the lower-cased
first 150 characters of its content (the content-address whose hash the
source compares). -/
def dedupKey (a : Answer) : String × String :=
  (a.type, pyLower (pyTake 150 a.content))

/-- The final dedup loop: keep the first answer of each (type, preview) key. -/
def dedupAnswers : List Answer → List (String × String) → List Answer
  | [], _ => []
  | a :: t, seen =>
    if dedupKey a ∈ seen then dedupAnswers t seen
    else a :: dedupAnswers t (dedupKey a :: seen)

/-- Python `round(x, 4)`: the nearest multiple of `1/10000` (the engine's
scores never hit an exact tie at the fifth decimal, so the tie direction is
immaterial; this rounds half up, `(2n+d) ediv 2d` being `n/d + 1/2` floored). -/
def round4 (x : ℚ) : ℚ :=
  let y := qmul x 10000
  mkRat ((2 * y.num + (y.den : ℤ)).ediv (2 * (y.den : ℤ))) 10000

/-! ## Knowledge-base matching (step 3 of `enhanced_reason`) -/

/-- The knowledge-base match candidate for one question/answer pair, when the
permissive inclusion rule admits it (`q` is the lowered stripped query). -/
def mkKbMatch (q original_question category : String) (qa : QA) (qa_question : String)
    (system_metrics : Option SystemMetrics) : Option Answer :=
  let fq := pyLower qa_question
  let fq_clean := pyStrip (stripChars ['?', '.', '!'] fq)
  let q_clean := pyStrip (stripChars ['?', '.', '!'] q)
  let similarity := calculate_similarity q fq
  let keyword_match := calculate_keyword_match q fq
  let exact_or_quoted :=
    strContains q_clean fq_clean ∨ strContains fq_clean q_clean ∨
    strContains original_question ("\"" ++ qa_question ++ "\"") ∨
    strContains original_question (singleQuote ++ qa_question ++ singleQuote)
  let combined_score := max similarity keyword_match
  let combined_score := if exact_or_quoted then 1 else combined_score
  if combined_score > mkRat 2 10 ∨ keyword_match > mkRat 3 10 ∨
     ((wordFinset q) ∩ (wordFinset fq)).card ≥ 2 ∨ exact_or_quoted then
    let confidence :=
      if exact_or_quoted then "perfect" else if combined_score > mkRat 5 10 then "high" else "medium"
    let match_score : ℚ := if exact_or_quoted then 1 else combined_score
    let flat_fact : FlatFact :=
      { question := qa_question, answer := qa.answer.getD "", category := category }
    let p := get_priority_level flat_fact system_metrics
    let r := execute_all_rules flat_fact system_metrics
    let ts := generate_troubleshooting_steps flat_fact
    some
      { type := "kb_match"
        content := qa.answer.getD "No detailed answer available."
        category := some category
        confidence := confidence
        match_score := some (round4 match_score)
        priority := if p.isEmpty then "MEDIUM" else p
        rule_advice := some r
        troubleshooting_steps := some ts
        source_question := some qa_question
        is_emergency_content := some (is_emergency_content (qa.answer.getD "")) }
  else none

/-- The knowledge-base scan: skip category records without a question list and
pairs without a question, score the rest. -/
def kbMatchesOf (facts : List CategoryFact) (q original_question : String)
    (system_metrics : Option SystemMetrics) : List Answer :=
  facts.flatMap (fun category_fact =>
    match category_fact.questions with
    | none => []
    | some qas =>
      let category := category_fact.category.getD "General"
      qas.filterMap (fun qa =>
        match qa.question with
        | none => none
        | some qa_question => mkKbMatch q original_question category qa qa_question
            system_metrics))

/-! ## Context-aware knowledge-match filtering (step 4) -/

/-- The hazard-vocabulary list that decides `query_has_emergency`. -/
def query_emergency_words : List String :=
  ["water", "liquid", "spill", "wet", "smoke", "fire", "spark", "burning"]

/-- The acceptance loop over the relevance-sorted candidates: the three
`continue` guards skip an iteration entirely, an accepted candidate respects
category diversity, and the loop breaks once two candidates are collected and
the current one scores above 0.7. -/
def acceptLoop (q : String) (query_has_emergency : Bool) (question_keywords : List String) :
    List Answer → List Answer → List Answer
  | [], best_matches => best_matches
  | m :: rest, best_matches =>
    if m.confidence = "low" ∧ m.match_score.getD 0 < mkRat 4 10 then
      acceptLoop q query_has_emergency question_keywords rest best_matches
    else if ¬ is_emergency_context_appropriate m q then
      acceptLoop q query_has_emergency question_keywords rest best_matches
    else
      let match_text := pyLower (m.content ++ " " ++ m.source_question.getD "")
      let relevance_score := calculate_relevance_score question_keywords match_text
      if m.is_emergency_content.getD false ∧ ¬ query_has_emergency ∧ relevance_score < mkRat 7 10 then
        acceptLoop q query_has_emergency question_keywords rest best_matches
      else
        let best' :=
          if (relevance_score > mkRat 3 10 ∨ m.confidence ∈ ["perfect", "high"] ∨
              m.match_score.getD 0 > mkRat 6 10) ∧
             (m.category ∉ best_matches.map (fun b => b.category) ∨
              m.confidence ∈ ["perfect", "high"])
          then best_matches ++ [m] else best_matches
        if best'.length ≥ 2 ∧ m.match_score.getD 0 > mkRat 7 10 then best'
        else acceptLoop q query_has_emergency question_keywords rest best'

/-- Step 4, first half: partition the candidates by hazard content (hazard
ones first only for a hazard query), attach the per-candidate relevance
score, and sort by (relevance, confidence tier, match score) descending. -/
def allMatchesOf (q : String) (kb_matches : List Answer) : List Answer :=
  let emergency_matches := kb_matches.filter (fun m => m.is_emergency_content.getD false)
  let normal_matches := kb_matches.filter (fun m => ¬ m.is_emergency_content.getD false)
  let query_has_emergency := query_emergency_words.any (fun word => strContains q word)
  let all_matches :=
    if query_has_emergency then emergency_matches ++ normal_matches
    else normal_matches ++ emergency_matches
  let all_matches := all_matches.map (fun m =>
    { m with relevance_score := some (calculate_query_relevance m q) })
  sortDesc kbSortKey all_matches

/-- Step 4, middle: the acceptance loop followed by the low-score safety net
applied once two matches were collected. -/
def prunedBestMatches (q : String) (all_matches : List Answer) : List Answer :=
  let query_has_emergency := query_emergency_words.any (fun word => strContains q word)
  let question_keywords := extract_main_keywords q
  let best_matches := acceptLoop q query_has_emergency question_keywords all_matches []
  if best_matches.length ≥ 2 then
    best_matches.filter (fun m =>
      m.match_score.getD 0 > mkRat 3 10 ∨ m.confidence ∈ ["perfect", "high"])
  else best_matches

/-- Step 4, second half: the pruned acceptance-loop result, with the top-1
fallback when nothing survived. -/
def selectBestMatches (q : String) (all_matches : List Answer) : List Answer :=
  let best_matches := prunedBestMatches q all_matches
  if best_matches.isEmpty ∧ ¬ all_matches.isEmpty then
    let appropriate_matches :=
      all_matches.filter (fun m => is_emergency_context_appropriate m q)
    if ¬ appropriate_matches.isEmpty then appropriate_matches.take 1
    else all_matches.take 1
  else best_matches

/-- The direct/related-answer content marker of the two survivors. -/
def markKbContent (m : Answer) : Answer :=
  if m.confidence = "perfect" then
    { m with content := "📚 Direct answer:\n" ++ m.content }
  else
    { m with content := "💡 Related answer:\n" ++ m.content }

/-- Step 4 of `enhanced_reason`: partition by hazard content, compute
relevance, sort, run the acceptance loop with its safety net and fallback,
cap at two, and mark the survivors' content. -/
def bestKbMatches (q : String) (kb_matches : List Answer) : List Answer :=
  if kb_matches.isEmpty then []
  else
    ((selectBestMatches q (allMatchesOf q kb_matches)).take 2).map markKbContent

/-! ## Final context pruning (`filter_irrelevant_answers`) -/

/-- `filter_irrelevant_answers`: prune answers contextually wrong for the
first detected non-emergency symptom. -/
def filter_irrelevant_answers (answers : List Answer) (_query : String)
    (primary_symptoms : List (String × Bool)) : List Answer :=
  let main_symptom : Option String :=
    (primary_symptoms.find? (fun nb => nb.2 ∧ nb.1 ≠ "emergency")).map (fun nb => nb.1)
  answers.filter (fun answer =>
    let answer_category := answer.category.getD ""
    let answer_type := answer.type
    let content_lower := pyLower answer.content
    if main_symptom = some "no_power" ∧
       (answer_category ∈ ["Input Devices", "Peripheral", "Audio"] ∨
        answer_type = "preventive") then false
    else if (main_symptom = some "slow" ∨ main_symptom = some "high_cpu" ∨
             main_symptom = some "crashing") ∧
       (answer_category ∈ ["Input Devices", "Peripheral"] ∨
        strContains content_lower "liquid" ∨ strContains content_lower "spill") then false
    else if main_symptom = some "screen_issue" ∧
       answer_category ∈ ["Input Devices", "Peripheral", "Audio"] then false
    else if strContains content_lower "keyboard" ∧ strContains content_lower "clean" ∧
       (main_symptom = some "no_power" ∨ main_symptom = some "slow" ∨
        main_symptom = some "high_cpu" ∨ main_symptom = some "screen_issue" ∨
        main_symptom = some "crashing") then false
    else true)

/-! ## The pipeline (`enhanced_reason`) -/

/-- The preventive-maintenance answer of step 7. -/
def preventiveAnswer (maint : List String) : Answer :=
  { type := "preventive"
    content := "🛠️ Long-term prevention tips:"
    category := some "Maintenance"
    confidence := "medium"
    priority := "LOW"
    rule_advice := some maint }

/-- Step 5 of `enhanced_reason`: merge the retained knowledge matches with
the symptom advice that adds value, or fall back to the symptom advice. -/
def mergeKbSymptom (registry : List (String × SymptomDef)) (symptoms : List (String × Bool))
    (question q : String) (system_metrics : Option SystemMetrics)
    (best_kb_matches : List Answer) : List Answer :=
  let symptom_advice :=
    master_generate_advice_in registry symptoms question q system_metrics
  if ¬ best_kb_matches.isEmpty then
    best_kb_matches ++ symptom_advice.filter (fun symptom_adv =>
      should_enhance_with_symptom_advice best_kb_matches symptom_adv)
  else symptom_advice

/-- Step 6 of `enhanced_reason`: append the metric alerts tied to a detected
symptom (or all of them when no answer exists yet). -/
def addMetricAlerts (symptoms : List (String × Bool)) (system_metrics : Option SystemMetrics)
    (answers : List Answer) : List Answer :=
  match system_metrics with
  | some ms =>
    let metric_alerts := generate_metric_advice ms
    answers ++ metric_alerts.filter (fun alert =>
      if symGet symptoms "overheating" ∧ strContains (pyLower alert.content) "temperature"
      then true
      else if symGet symptoms "slow" ∧ strContains (pyLower alert.content) "memory"
      then true
      else answers.isEmpty)
  | none => answers

/-- Step 7 of `enhanced_reason`: append the preventive-maintenance answer
when it is topical or no preventive answer exists yet. -/
def addPreventive (symptoms : List (String × Bool)) (question : String)
    (answers : List Answer) : List Answer :=
  let fake_fact : FlatFact := { question := question, answer := "", category := "Maintenance" }
  let maint := get_preventive_maintenance_advice fake_fact
  let should_add_preventive :=
    if symGet symptoms "overheating" ∧ ¬ maint.isEmpty ∧
       maint.any (fun advice => strContains (pyLower advice) "clean") then true
    else if symGet symptoms "slow" ∧ ¬ maint.isEmpty ∧
       maint.any (fun a => strContains (pyLower a) "update" ∨ strContains (pyLower a) "clean")
    then true
    else if ¬ maint.isEmpty ∧ ¬ answers.any (fun a => a.type = "preventive") then true
    else false
  if ¬ maint.isEmpty ∧ should_add_preventive then answers ++ [preventiveAnswer maint]
  else answers

/-- Step 8 of `enhanced_reason`: replace an empty or single weak match by
fresh symptom advice, keeping the non-knowledge answers. -/
def replaceWeak (registry : List (String × SymptomDef)) (symptoms : List (String × Bool))
    (question q : String) (system_metrics : Option SystemMetrics)
    (answers : List Answer) : List Answer :=
  if answers.isEmpty ∨
     (answers.length = 1 ∧ ((answers.head?.map (fun a => a.match_score.getD 0)).getD 0) < mkRat 4 10)
  then
    let symptom_advice :=
      master_generate_advice_in registry symptoms question q system_metrics
    if ¬ symptom_advice.isEmpty then
      symptom_advice ++ answers.filter (fun a => a.type ≠ "kb_match")
    else answers
  else answers

/-- Steps 5–8 of `enhanced_reason` (the fusion block between knowledge-match
selection and the final context pruning). -/
def fuseAnswers (registry : List (String × SymptomDef)) (symptoms : List (String × Bool))
    (question q : String) (system_metrics : Option SystemMetrics)
    (best_kb_matches : List Answer) : List Answer :=
  replaceWeak registry symptoms question q system_metrics
    (addPreventive symptoms question
      (addMetricAlerts symptoms system_metrics
        (mergeKbSymptom registry symptoms question q system_metrics best_kb_matches)))

/-- Step 9 of `enhanced_reason`: the final stable descending sort, the
(type, content-preview) deduplication, the cap at 4 answers and the
need-more-info fallback on an empty list. -/
def finalizeAnswers (answers : List Answer) : List Answer :=
  let answers := sortDesc finalSortKey answers
  let unique := dedupAnswers answers []
  if ¬ unique.isEmpty then unique.take 4 else [fallback_answer]

/-- The whole pipeline over an explicit symptom registry — emergency
short-circuit, symptom extraction, knowledge matching and filtering, fusion
with symptom advice, metric alerts and preventive maintenance, weak-match
fallback, context pruning, final ranking, deduplication, truncation to 4,
and the need-more-info fallback. -/
def enhanced_reason_in (registry : List (String × SymptomDef)) (facts : List CategoryFact)
    (question : String) (system_metrics : Option SystemMetrics) : List Answer :=
  let q := pyStrip (pyLower question)
  let original_question := question
  match check_emergency_situation q with
  | some emergency => [emergency]
  | none =>
    let symptoms := extract_all_symptoms_in registry q
    let kb_matches := kbMatchesOf facts q original_question system_metrics
    let best_kb_matches := bestKbMatches q kb_matches
    let answers :=
      fuseAnswers registry symptoms original_question q system_metrics best_kb_matches
    finalizeAnswers (filter_irrelevant_answers answers q symptoms)

/-- `enhanced_reason` against the loaded `SYMPTOM_DEFINITIONS`. -/
def enhanced_reason (facts : List CategoryFact) (question : String)
    (system_metrics : Option SystemMetrics) : List Answer :=
  enhanced_reason_in SYMPTOM_DEFINITIONS facts question system_metrics

/-- `reason` simply forwards to `enhanced_reason`. -/
def reason (facts : List CategoryFact) (question : String)
    (system_metrics : Option SystemMetrics) : List Answer :=
  enhanced_reason facts question system_metrics

/-! ## The engine's ambient state

The knowledge base and the symptom registry are the only data shared across
calls.  `enhanced_reason_st` threads them explicitly, performing exactly the
reads the source performs and every write it performs (there are none). -/

/-- The process-wide state the engine reads: the loaded knowledge base and the
symptom registry. -/
structure EngineState where
  facts : List CategoryFact
  registry : List (String × SymptomDef)

/-- `enhanced_reason` over explicit ambient state: the call reads the
knowledge base and the registry out of the state and the result is paired
with the state the call leaves behind (the source performs no write to
either). -/
def enhanced_reason_st (st : EngineState) (question : String)
    (system_metrics : Option SystemMetrics) : List Answer × EngineState :=
  (enhanced_reason_in st.registry st.facts question system_metrics, st)

/-! ## Predicates and fixtures used by the statements -/

/-- The five priority tiers of the data model. -/
def priorityTiers : List String := ["CRITICAL", "HIGH", "MEDIUM", "LOW", "NORMAL"]

/-- The four confidence tiers of the data model. -/
def confidenceTiers : List String := ["perfect", "high", "medium", "low"]

/-- A well-shaped non-fallback, non-emergency answer: a known non-emergency
type tag, a priority tier, a confidence tier, and a present category. -/
def answerOKb (a : Answer) : Bool :=
  a.type ∈ ["kb_match", "expert_diagnosis", "expert_generic", "metric_alert", "preventive"] &&
  a.priority ∈ priorityTiers && a.confidence ∈ confidenceTiers && a.category.isSome

/-- Every advice template of a registry is a well-shaped expert diagnosis. -/
def registryAdviceOK (registry : List (String × SymptomDef)) : Bool :=
  registry.all (fun nd =>
    match nd.2.expert_advice with
    | some a => answerOKb a && (a.type == "expert_diagnosis")
    | none => true)

/-- A well-formed knowledge base: every category record carries its question
list and every pair carries its question. -/
def wellFormedKB (facts : List CategoryFact) : Bool :=
  facts.all (fun cf =>
    match cf.questions with
    | some qas => qas.all (fun qa => qa.question.isSome)
    | none => false)

/-- The query carries none of the eight hazard-indicator words. -/
def hazardFreeQuery (q : String) : Bool :=
  query_emergency_words.all (fun word => ¬ strContains q word)

/-- The expert-advice template of the `no_power` symptom, as registered. -/
def noPowerAdvice : Answer :=
  { type := "expert_diagnosis"
    content := "PC completely dead? Follow this exact order:"
    category := some "Power Failure"
    confidence := "high"
    priority := "HIGH"
    rule_advice := some
      ["Check power cable & wall socket first",
       "Hold power button 30–60 seconds (drain flea power)",
       "Reseat RAM and CMOS battery",
       "Check front panel connectors",
       "Test with only motherboard + CPU + 1 RAM stick + PSU"]
    troubleshooting_steps := some
      ["1. Verify power cable and outlet work",
       "2. Drain residual power (hold power button 30+ seconds)",
       "3. Check internal power connections",
       "4. Test with minimal hardware configuration",
       "5. Try known-good PSU if available"] }

/-- Modelled from the spec's words (§4.4): the raw relevance formula —
`match_score`, plus 0.3 when both query and candidate concern power-failure
phrasing, minus 0.4 when the candidate is hazard-flavoured but the query is
not; the claim asserts the computed score is this, floored at 0 only. -/
def spec_relevance_raw (m : Answer) (query : String) : ℚ :=
  m.match_score.getD 0 +
  (if (["won't turn on", "no power", "dead", "not powering on", "wont turn on"].any
        (fun p => strContains query p)) ∧
      (strContains (pyLower m.content) "power" ∨
       strContains (pyLower (m.source_question.getD "")) "power")
   then mkRat 3 10 else 0) -
  (if m.is_emergency_content.getD false ∧
      ¬ (["water", "liquid", "spill", "wet", "smoke", "fire"].any
         (fun indicator => strContains query indicator))
   then mkRat 4 10 else 0)

/-- Concrete knowledge base of the C3 counterexample: a single entry whose
answer text is hazard-response phrasing. -/
def c3facts : List CategoryFact :=
  [{ category := some "Hardware"
     questions := some [{ question := some "how to fix alpha beta",
                          answer := some "remove battery" }] }]

/-- Concrete knowledge base of the C3 witness: one hazard-flavoured entry and
one plain entry, both lexically near the query. -/
def c3wfacts : List CategoryFact :=
  [{ category := some "Hardware"
     questions := some [{ question := some "how to fix alpha beta",
                          answer := some "remove battery" },
                        { question := some "alpha beta gamma guide",
                          answer := some "restart the machine" }] }]

/-- A long non-generic knowledge answer (over 150 characters, mentioning
drivers) used by the C8 witness. -/
def c8answer : String :=
  "Check your driver settings and look at background processes in the task " ++
  "manager sorted by processor load; end anything suspicious there, then " ++
  "check again whether the load went down after a restart of the machine."

/-- Concrete knowledge base of the C8 witness: a single lexically perfect
match filed under the Peripheral category, which the context pruning pass
removes for a high-CPU query, leaving nothing. -/
def c8facts : List CategoryFact :=
  [{ category := some "Peripheral"
     questions := some [{ question := some "why high cpu usage always happens",
                          answer := some c8answer }] }]

/-- Concrete match candidate of the C6 counterexample: a perfect-score,
power-flavoured, non-hazard candidate. -/
def c6match : Answer :=
  { type := "kb_match"
    content := "power supply checklist"
    category := some "Hardware"
    confidence := "perfect"
    priority := "MEDIUM"
    match_score := some 1
    source_question := some "power issues"
    is_emergency_content := some false }

/-- The worked example query of the specification: a completely dead laptop. -/
def noPowerQuery : String := "my laptop wont turn on, completely dead"

/-! ## Lemmas: rational arithmetic bridges -/

/-- `qadd` is addition on `ℚ`. -/
theorem qadd_eq (a b : ℚ) : qadd a b = a + b := by
  rw [qadd, Rat.mkRat_eq_div]
  have ha : ((a.den : ℚ)) ≠ 0 := by exact_mod_cast a.den_nz
  have hb : ((b.den : ℚ)) ≠ 0 := by exact_mod_cast b.den_nz
  push_cast
  conv_rhs => rw [← Rat.num_div_den a, ← Rat.num_div_den b]
  field_simp

/-- `qsub` is subtraction on `ℚ`. -/
theorem qsub_eq (a b : ℚ) : qsub a b = a - b := by
  rw [qsub, Rat.mkRat_eq_div]
  have ha : ((a.den : ℚ)) ≠ 0 := by exact_mod_cast a.den_nz
  have hb : ((b.den : ℚ)) ≠ 0 := by exact_mod_cast b.den_nz
  push_cast
  conv_rhs => rw [← Rat.num_div_den a, ← Rat.num_div_den b]
  rw [div_sub_div _ _ ha hb]
  ring_nf

/-- `qmul` is multiplication on `ℚ`. -/
theorem qmul_eq (a b : ℚ) : qmul a b = a * b := by
  rw [qmul, Rat.mkRat_eq_div]
  push_cast
  conv_rhs => rw [← Rat.num_div_den a, ← Rat.num_div_den b]
  rw [div_mul_div_comm]

/-- A rational is the quotient of its crossed numerator and denominator with
another's. -/
theorem div_num_den (a b : ℚ) : a / b = ((a.num : ℚ) * b.den) / ((a.den : ℚ) * b.num) := by
  rcases eq_or_ne b 0 with hb0 | hb0
  · subst hb0; simp
  · calc a / b = ((a.num : ℚ) / a.den) / ((b.num : ℚ) / b.den) := by
          rw [Rat.num_div_den, Rat.num_div_den]
    _ = ((a.num : ℚ) / a.den) * ((b.den : ℚ) / b.num) := by
          rw [div_eq_mul_inv, inv_div]
    _ = ((a.num : ℚ) * b.den) / ((a.den : ℚ) * b.num) := div_mul_div_comm _ _ _ _

/-- `qdiv` is division on `ℚ`. -/
theorem qdiv_eq (a b : ℚ) : qdiv a b = a / b := by
  rw [div_num_den]
  rcases le_or_lt 0 b.num with hpos | hneg
  · rw [qdiv, if_pos hpos, Rat.mkRat_eq_div]
    have h0 : ((b.num.natAbs : ℤ)) = b.num := Int.natAbs_of_nonneg hpos
    have h1 : ((b.num.natAbs : ℚ)) = (b.num : ℚ) := by
      rw [← Int.cast_natCast, h0]
    push_cast
    rw [h1]
  · rw [qdiv, if_neg (not_le.mpr hneg), Rat.mkRat_eq_div]
    have h0 : ((b.num.natAbs : ℤ)) = -b.num := Int.ofNat_natAbs_of_nonpos hneg.le
    have h1 : ((b.num.natAbs : ℚ)) = -(b.num : ℚ) := by
      rw [← Int.cast_natCast, h0, Int.cast_neg]
    push_cast
    rw [h1, mul_neg, div_neg, neg_div, neg_neg]

/-! ## Lemmas: the lexicographic key order -/

/-- `keyLT` is asymmetric. -/
theorem keyLT_asymm : ∀ {x y : List ℚ}, keyLT x y = true → keyLT y x = false
  | [], [], h => by simp [keyLT] at h
  | [], _ :: _, _ => by simp [keyLT]
  | _ :: _, [], h => by simp [keyLT] at h
  | a :: as, b :: bs, h => by
    simp only [keyLT] at h ⊢
    by_cases hab : a < b
    · rw [if_neg (asymm hab), if_pos hab]
    · by_cases hba : b < a
      · rw [if_neg hab, if_pos hba] at h
        exact absurd h (by simp)
      · rw [if_neg hab, if_neg hba] at h
        rw [if_neg hba, if_neg hab]
        exact keyLT_asymm h

/-- The negation of `keyLT` is transitive. -/
theorem keyLT_neg_trans : ∀ {x y z : List ℚ},
    keyLT x y = false → keyLT y z = false → keyLT x z = false
  | [], y, z, h1, h2 => by
    cases y with
    | nil =>
      cases z with
      | nil => simp [keyLT]
      | cons c cs => simp [keyLT] at h2
    | cons b bs => simp [keyLT] at h1
  | _ :: _, [], [], _, _ => by simp [keyLT]
  | _ :: _, [], _ :: _, _, h2 => by simp [keyLT] at h2
  | _ :: _, _ :: _, [], _, _ => by simp [keyLT]
  | a :: as, b :: bs, c :: cs, h1, h2 => by
    simp only [keyLT] at h1 h2 ⊢
    by_cases hab : a < b
    · simp [hab] at h1
    · by_cases hbc : b < c
      · simp [hbc] at h2
      · have hca : ¬ a < c := fun hac => hab (lt_of_lt_of_le hac (not_lt.mp hbc))
        rw [if_neg hca]
        by_cases hca' : c < a
        · rw [if_pos hca']
        · rw [if_neg hca']
          have hba : ¬ b < a := not_lt.mpr (le_trans (not_lt.mp hca') (not_lt.mp hbc))
          have hcb : ¬ c < b := not_lt.mpr (le_trans (not_lt.mp hab) (not_lt.mp hca'))
          rw [if_neg hab, if_neg hba] at h1
          rw [if_neg hbc, if_neg hcb] at h2
          exact keyLT_neg_trans h1 h2

/-- Failing `keyLT` is the reverse lexicographic `keyLE`. -/
theorem keyLE_of_keyLT_false : ∀ {x y : List ℚ}, keyLT x y = false → keyLE y x = true
  | [], [], _ => by simp [keyLE]
  | [], _ :: _, h => by simp [keyLT] at h
  | _ :: _, [], _ => by simp [keyLE]
  | a :: as, b :: bs, h => by
    simp only [keyLT] at h
    simp only [keyLE]
    by_cases hab : a < b
    · rw [if_pos hab] at h
      exact absurd h (by simp)
    · by_cases hba : b < a
      · rw [if_pos hba]
      · rw [if_neg hba, if_neg hab]
        rw [if_neg hab, if_neg hba] at h
        exact keyLE_of_keyLT_false h

/-! ## Lemmas: the stable descending sort -/

/-- Membership is preserved by descending insertion. -/
theorem mem_insDesc (key : α → List ℚ) (a : α) :
    ∀ (l : List α) (x : α), x ∈ insDesc key a l ↔ x = a ∨ x ∈ l
  | [], x => by simp [insDesc]
  | b :: t, x => by
    simp only [insDesc]
    split
    · simp only [List.mem_cons, mem_insDesc key a t x]
      tauto
    · simp only [List.mem_cons]

/-- Membership is preserved by the descending sort. -/
theorem mem_sortDesc (key : α → List ℚ) :
    ∀ (l : List α) (x : α), x ∈ sortDesc key l ↔ x ∈ l
  | [], x => by simp [sortDesc]
  | a :: t, x => by
    simp only [sortDesc, mem_insDesc, mem_sortDesc key t, List.mem_cons]

/-- Descending insertion adds one to the length. -/
theorem length_insDesc (key : α → List ℚ) (a : α) :
    ∀ l : List α, (insDesc key a l).length = l.length + 1
  | [] => by simp [insDesc]
  | b :: t => by
    simp only [insDesc]
    split
    · simp [length_insDesc key a t]
    · simp

/-- The descending sort preserves length. -/
theorem length_sortDesc (key : α → List ℚ) :
    ∀ l : List α, (sortDesc key l).length = l.length
  | [] => rfl
  | a :: t => by simp [sortDesc, length_insDesc, length_sortDesc key t]

/-- Descending insertion into a descending list yields a descending list. -/
theorem pairwise_insDesc (key : α → List ℚ) (a : α) :
    ∀ l : List α, l.Pairwise (fun x y => keyLT (key x) (key y) = false) →
      (insDesc key a l).Pairwise (fun x y => keyLT (key x) (key y) = false)
  | [], _ => by simp [insDesc]
  | b :: t, h => by
    simp only [insDesc]
    rcases List.pairwise_cons.mp h with ⟨hb, ht⟩
    split
    · rename_i hlt
      refine List.pairwise_cons.mpr ⟨?_, pairwise_insDesc key a t ht⟩
      intro x hx
      rcases (mem_insDesc key a t x).mp hx with rfl | hxt
      · exact keyLT_asymm hlt
      · exact hb x hxt
    · rename_i hnlt
      refine List.pairwise_cons.mpr ⟨?_, h⟩
      intro x hx
      rcases List.mem_cons.mp hx with rfl | hxt
      · exact Bool.eq_false_iff.mpr hnlt
      · exact keyLT_neg_trans (Bool.eq_false_iff.mpr hnlt) (hb x hxt)

/-- The descending sort yields a descending list. -/
theorem pairwise_sortDesc (key : α → List ℚ) :
    ∀ l : List α, (sortDesc key l).Pairwise (fun x y => keyLT (key x) (key y) = false)
  | [] => by simp [sortDesc]
  | a :: t => pairwise_insDesc key a (sortDesc key t) (pairwise_sortDesc key t)

/-! ## Lemmas: deduplication -/

/-- The dedup pass returns a sublist of its input. -/
theorem dedupAnswers_sublist : ∀ (l : List Answer) (seen : List (String × String)),
    List.Sublist (dedupAnswers l seen) l
  | [], _ => List.Sublist.refl []
  | a :: t, seen => by
    simp only [dedupAnswers]
    split
    · exact (dedupAnswers_sublist t seen).cons a
    · exact (dedupAnswers_sublist t _).cons₂ a

/-- No key already seen appears among the dedup survivors. -/
theorem dedupAnswers_notin : ∀ (l : List Answer) (seen : List (String × String)),
    ∀ x ∈ dedupAnswers l seen, dedupKey x ∉ seen
  | [], _ => by simp [dedupAnswers]
  | a :: t, seen => by
    simp only [dedupAnswers]
    split
    · exact dedupAnswers_notin t seen
    · rename_i hnot
      intro x hx
      rcases List.mem_cons.mp hx with rfl | hxt
      · exact hnot
      · intro hmem
        exact dedupAnswers_notin t _ x hxt (List.mem_cons_of_mem _ hmem)

/-- The dedup survivors have pairwise distinct keys. -/
theorem dedupAnswers_pairwise : ∀ (l : List Answer) (seen : List (String × String)),
    (dedupAnswers l seen).Pairwise (fun a b => dedupKey a ≠ dedupKey b)
  | [], _ => by simp [dedupAnswers]
  | a :: t, seen => by
    simp only [dedupAnswers]
    split
    · exact dedupAnswers_pairwise t seen
    · refine List.pairwise_cons.mpr ⟨?_, dedupAnswers_pairwise t _⟩
      intro x hx heq
      exact dedupAnswers_notin t _ x hx (heq ▸ List.mem_cons_self _ _)

/-- An element whose key is unique in the list and unseen survives dedup. -/
theorem mem_dedupAnswers : ∀ (l : List Answer) (seen : List (String × String)) (x : Answer),
    x ∈ l → (∀ y ∈ l, dedupKey y = dedupKey x → y = x) → dedupKey x ∉ seen →
    x ∈ dedupAnswers l seen
  | [], _, x, hx, _, _ => by simp at hx
  | a :: t, seen, x, hx, huniq, hseen => by
    simp only [dedupAnswers]
    by_cases hxa : x = a
    · subst hxa
      rw [if_neg hseen]
      exact List.mem_cons_self _ _
    · have hxt : x ∈ t := by
        rcases List.mem_cons.mp hx with rfl | h
        · exact absurd rfl hxa
        · exact h
      have hka : dedupKey a ≠ dedupKey x := fun he =>
        hxa ((huniq a (List.mem_cons_self _ _) he).symm)
      split
      · exact mem_dedupAnswers t seen x hxt
          (fun y hy => huniq y (List.mem_cons_of_mem _ hy)) hseen
      · refine List.mem_cons_of_mem _ (mem_dedupAnswers t _ x hxt
          (fun y hy => huniq y (List.mem_cons_of_mem _ hy)) ?_)
        intro hmem
        rcases List.mem_cons.mp hmem with he | hs
        · exact hka he.symm
        · exact hseen hs

/-! ## Lemmas: the knowledge-match pipeline -/

/-- `get_priority_level` always answers one of the five tiers. -/
theorem get_priority_level_mem (fact : FlatFact) (m : Option SystemMetrics) :
    get_priority_level fact m ∈ priorityTiers := by
  unfold get_priority_level priorityTiers
  dsimp only
  split_ifs <;> simp

/-- Shape of every knowledge-match candidate: the `kb_match` type tag, a
priority tier, one of the three produced confidence tiers, a present
category, and a present hazard-content flag. -/
theorem kbMatchesOf_shape (facts : List CategoryFact) (q oq : String)
    (sm : Option SystemMetrics) :
    ∀ x ∈ kbMatchesOf facts q oq sm, x.type = "kb_match" ∧
      x.priority ∈ priorityTiers ∧ x.confidence ∈ ["perfect", "high", "medium"] ∧
      x.category.isSome = true ∧ x.is_emergency_content.isSome = true := by
  intro x hx
  rcases List.mem_flatMap.mp hx with ⟨cf, _, hcf⟩
  rcases hcf' : cf.questions with _ | qas
  · rw [kbMatchesOf.eq_def] at hx
    rw [hcf'] at hcf
    simp at hcf
  · rw [hcf'] at hcf
    simp only at hcf
    rcases List.mem_filterMap.mp hcf with ⟨qa, _, hqa⟩
    rcases hq' : qa.question with _ | qq
    · rw [hq'] at hqa; simp at hqa
    · rw [hq'] at hqa
      simp only at hqa
      unfold mkKbMatch at hqa
      simp only at hqa
      split at hqa <;> split at hqa
      all_goals try exact Option.noConfusion hqa
      all_goals
        rcases Option.some.inj hqa with rfl
        refine ⟨rfl, ?_, ?_, rfl, rfl⟩
        · simp only
          split
          · simp [priorityTiers]
          · exact get_priority_level_mem _ _
        · simp only
          (try split_ifs) <;> simp

/-- The content marker leaves every field but the content unchanged. -/
theorem markKbContent_fields (m : Answer) :
    (markKbContent m).type = m.type ∧ (markKbContent m).category = m.category ∧
    (markKbContent m).confidence = m.confidence ∧ (markKbContent m).priority = m.priority ∧
    (markKbContent m).match_score = m.match_score ∧
    (markKbContent m).is_emergency_content = m.is_emergency_content := by
  unfold markKbContent
  split <;> exact ⟨rfl, rfl, rfl, rfl, rfl, rfl⟩

/-- Elements of the partitioned concatenation are elements of the input. -/
theorem mem_partition_concat {p : Answer → Bool} {kb : List Answer} {x : Answer} :
    (x ∈ kb.filter p ++ kb.filter (fun m => ¬ p m) → x ∈ kb) ∧
    (x ∈ kb → x ∈ kb.filter p ++ kb.filter (fun m => ¬ p m)) := by
  constructor
  · intro hx
    rcases List.mem_append.mp hx with h | h
    · exact (List.mem_filter.mp h).1
    · exact (List.mem_filter.mp h).1
  · intro hx
    by_cases hp : p x
    · exact List.mem_append.mpr (Or.inl (List.mem_filter.mpr ⟨hx, hp⟩))
    · exact List.mem_append.mpr (Or.inr (List.mem_filter.mpr ⟨hx, by simp [hp]⟩))

/-- Every element of the relevance-sorted candidate list is an input
candidate with its relevance score attached, and conversely. -/
theorem mem_allMatchesOf (q : String) (kb : List Answer) (x : Answer) :
    x ∈ allMatchesOf q kb ↔
    ∃ y ∈ kb, x = { y with relevance_score := some (calculate_query_relevance y q) } := by
  unfold allMatchesOf
  simp only
  rw [mem_sortDesc]
  constructor
  · intro hx
    rcases List.mem_map.mp hx with ⟨y, hy, rfl⟩
    have hy' : y ∈ kb := by
      split at hy
      · exact (mem_partition_concat (p := fun m => m.is_emergency_content.getD false)).1 hy
      · rcases List.mem_append.mp hy with h | h
        · exact (List.mem_filter.mp h).1
        · exact (List.mem_filter.mp h).1
    exact ⟨y, hy', rfl⟩
  · rintro ⟨y, hy, rfl⟩
    refine List.mem_map.mpr ⟨y, ?_, rfl⟩
    split
    · exact (mem_partition_concat (p := fun m => m.is_emergency_content.getD false)).2 hy
    · rcases mem_partition_concat (p := fun m => m.is_emergency_content.getD false)
        |>.2 hy |> List.mem_append.mp with h | h
      · exact List.mem_append.mpr (Or.inr h)
      · exact List.mem_append.mpr (Or.inl h)

/-- Everything the acceptance loop returns was already collected or came from
the candidate list. -/
theorem acceptLoop_mem (q : String) (qhe : Bool) (qks : List String) :
    ∀ (l best : List Answer), ∀ x ∈ acceptLoop q qhe qks l best, x ∈ best ∨ x ∈ l
  | [], best, x, hx => Or.inl hx
  | m :: rest, best, x, hx => by
    rw [acceptLoop] at hx
    split at hx
    · rcases acceptLoop_mem q qhe qks rest best x hx with h | h
      · exact Or.inl h
      · exact Or.inr (List.mem_cons_of_mem _ h)
    · split at hx
      · rcases acceptLoop_mem q qhe qks rest best x hx with h | h
        · exact Or.inl h
        · exact Or.inr (List.mem_cons_of_mem _ h)
      · dsimp only at hx
        split at hx
        · rcases acceptLoop_mem q qhe qks rest best x hx with h | h
          · exact Or.inl h
          · exact Or.inr (List.mem_cons_of_mem _ h)
        · split at hx
          · split at hx
            · rcases List.mem_append.mp hx with h | h
              · exact Or.inl h
              · exact Or.inr (by rw [List.mem_singleton.mp h]; exact List.mem_cons_self _ _)
            · rcases acceptLoop_mem q qhe qks rest (best ++ [m]) x hx with h | h
              · rcases List.mem_append.mp h with h' | h'
                · exact Or.inl h'
                · exact Or.inr (by rw [List.mem_singleton.mp h']; exact List.mem_cons_self _ _)
              · exact Or.inr (List.mem_cons_of_mem _ h)
          · split at hx
            · exact Or.inl hx
            · rcases acceptLoop_mem q qhe qks rest best x hx with h | h
              · exact Or.inl h
              · exact Or.inr (List.mem_cons_of_mem _ h)

/-- The acceptance loop only ever collects context-appropriate candidates. -/
theorem acceptLoop_appropriate (q : String) (qhe : Bool) (qks : List String) :
    ∀ (l best : List Answer),
      (∀ x ∈ best, is_emergency_context_appropriate x q = true) →
      ∀ x ∈ acceptLoop q qhe qks l best, is_emergency_context_appropriate x q = true
  | [], best, hbest, x, hx => hbest x hx
  | m :: rest, best, hbest, x, hx => by
    rw [acceptLoop] at hx
    split at hx
    · exact acceptLoop_appropriate q qhe qks rest best hbest x hx
    · split at hx
      · exact acceptLoop_appropriate q qhe qks rest best hbest x hx
      · rename_i hnotskip
        have hm : is_emergency_context_appropriate m q = true := by
          by_cases h : is_emergency_context_appropriate m q
          · exact h
          · exact absurd h (by simpa using hnotskip)
        dsimp only at hx
        split at hx
        · exact acceptLoop_appropriate q qhe qks rest best hbest x hx
        · split at hx
          · have hb2 : ∀ z ∈ best ++ [m], is_emergency_context_appropriate z q = true := by
              intro z hz
              rcases List.mem_append.mp hz with h | h
              · exact hbest z h
              · rw [List.mem_singleton.mp h]; exact hm
            split at hx
            · exact hb2 x hx
            · exact acceptLoop_appropriate q qhe qks rest (best ++ [m]) hb2 x hx
          · split at hx
            · exact hbest x hx
            · exact acceptLoop_appropriate q qhe qks rest best hbest x hx

/-- Everything the pruning stage returns came out of the acceptance loop. -/
theorem mem_prunedBestMatches (q : String) (all : List Answer) :
    ∀ x ∈ prunedBestMatches q all, x ∈ all := by
  intro x hx
  unfold prunedBestMatches at hx
  dsimp only at hx
  have hloop : ∀ z, z ∈ acceptLoop q
      (query_emergency_words.any (fun word => strContains q word))
      (extract_main_keywords q) all [] → z ∈ all := by
    intro z hz
    rcases acceptLoop_mem _ _ _ all [] z hz with h | h
    · exact absurd h (List.not_mem_nil z)
    · exact h
  split at hx
  · exact hloop x (List.mem_filter.mp hx).1
  · exact hloop x hx

/-- Everything the pruning stage returns is context-appropriate. -/
theorem prunedBestMatches_appropriate (q : String) (all : List Answer) :
    ∀ x ∈ prunedBestMatches q all, is_emergency_context_appropriate x q = true := by
  intro x hx
  unfold prunedBestMatches at hx
  dsimp only at hx
  have hloop : ∀ z, z ∈ acceptLoop q
      (query_emergency_words.any (fun word => strContains q word))
      (extract_main_keywords q) all [] → is_emergency_context_appropriate z q = true :=
    fun z hz => acceptLoop_appropriate _ _ _ all [] (by simp) z hz
  split at hx
  · exact hloop x (List.mem_filter.mp hx).1
  · exact hloop x hx

/-- Everything the selection stage returns is a candidate. -/
theorem mem_selectBestMatches (q : String) (all : List Answer) :
    ∀ x ∈ selectBestMatches q all, x ∈ all := by
  intro x hx
  unfold selectBestMatches at hx
  dsimp only at hx
  split at hx
  · split at hx
    · exact (List.mem_filter.mp (List.take_subset 1 _ hx)).1
    · exact List.take_subset 1 all hx
  · exact mem_prunedBestMatches q all x hx

/-- When some candidate is context-appropriate, every selected match is. -/
theorem selectBestMatches_appropriate (q : String) (all : List Answer)
    (hex : ∃ y ∈ all, is_emergency_context_appropriate y q = true) :
    ∀ x ∈ selectBestMatches q all, is_emergency_context_appropriate x q = true := by
  intro x hx
  unfold selectBestMatches at hx
  dsimp only at hx
  rcases hex with ⟨y, hy, hyok⟩
  have happr : ¬ (all.filter (fun m => is_emergency_context_appropriate m q)).isEmpty = true := by
    rw [List.isEmpty_iff]
    intro hnil
    have : y ∈ all.filter (fun m => is_emergency_context_appropriate m q) :=
      List.mem_filter.mpr ⟨hy, hyok⟩
    rw [hnil] at this
    exact List.not_mem_nil y this
  split at hx <;>
    first
    | exact (List.mem_filter.mp (List.take_subset 1 _ hx)).2
    | exact prunedBestMatches_appropriate q all x hx

/-- Every retained knowledge match descends from a candidate, keeping its
type, category, confidence, priority, match score and hazard flag. -/
theorem bestKbMatches_core (q : String) (kb : List Answer) :
    ∀ x ∈ bestKbMatches q kb, ∃ y ∈ kb, x.type = y.type ∧ x.category = y.category ∧
      x.confidence = y.confidence ∧ x.priority = y.priority ∧
      x.match_score = y.match_score ∧ x.is_emergency_content = y.is_emergency_content := by
  intro x hx
  unfold bestKbMatches at hx
  split at hx
  · exact absurd hx (List.not_mem_nil x)
  · rcases List.mem_map.mp hx with ⟨z, hz, rfl⟩
    have hz' : z ∈ allMatchesOf q kb :=
      mem_selectBestMatches q _ z (List.take_subset 2 _ hz)
    rcases (mem_allMatchesOf q kb z).mp hz' with ⟨y, hy, rfl⟩
    rcases markKbContent_fields { y with
      relevance_score := some (calculate_query_relevance y q) } with
      ⟨ht, hc, hcf, hp, hm, he⟩
    exact ⟨y, hy, by rw [ht], by rw [hc], by rw [hcf], by rw [hp], by rw [hm], by rw [he]⟩

/-- At most two knowledge matches are retained. -/
theorem bestKbMatches_len (q : String) (kb : List Answer) :
    (bestKbMatches q kb).length ≤ 2 := by
  unfold bestKbMatches
  split
  · simp
  · rw [List.length_map, List.length_take]
    exact min_le_left 2 _

/-- Under a hazard-free query, context appropriateness is exactly the absence
of the hazard-content flag. -/
theorem appropriate_iff_not_flag (q : String) (m : Answer) (hq : hazardFreeQuery q = true) :
    is_emergency_context_appropriate m q = true ↔ m.is_emergency_content.getD false = false := by
  have hnone : ∀ w ∈ query_emergency_words, strContains q w = false := by
    intro w hw
    have := (List.all_eq_true.mp hq) w hw
    simpa using this
  unfold is_emergency_context_appropriate
  by_cases hfl : m.is_emergency_content.getD false
  · rw [if_neg (by simpa using hfl)]
    dsimp only
    have hany : (["water", "liquid", "spill", "wet", "smoke", "fire", "spark",
        "burning"].any (fun i => strContains q i)) = false := by
      rw [List.any_eq_false]
      intro w hw
      simpa using hnone w (by simpa [query_emergency_words] using hw)
    rw [hany]
    simp [hfl]
  · rw [if_pos (by simpa using hfl)]
    simp [hfl]

/-- For a hazard-free query with at least one non-hazard candidate, no
retained knowledge match is hazard-flagged. -/
theorem bestKbMatches_no_hazard (q : String) (kb : List Answer)
    (hq : hazardFreeQuery q = true)
    (hex : ∃ y ∈ kb, y.is_emergency_content.getD false = false) :
    ∀ x ∈ bestKbMatches q kb, x.is_emergency_content.getD false = false := by
  intro x hx
  unfold bestKbMatches at hx
  split at hx
  · exact absurd hx (List.not_mem_nil x)
  · rcases List.mem_map.mp hx with ⟨z, hz, rfl⟩
    have hz' : z ∈ selectBestMatches q (allMatchesOf q kb) := List.take_subset 2 _ hz
    rcases hex with ⟨y, hy, hyflag⟩
    have hymem : { y with relevance_score := some (calculate_query_relevance y q) } ∈
        allMatchesOf q kb := (mem_allMatchesOf q kb _).mpr ⟨y, hy, rfl⟩
    have hyappr : is_emergency_context_appropriate
        { y with relevance_score := some (calculate_query_relevance y q) } q = true :=
      (appropriate_iff_not_flag q _ hq).mpr (by simpa using hyflag)
    have hzappr := selectBestMatches_appropriate q (allMatchesOf q kb)
      ⟨_, hymem, hyappr⟩ z hz'
    have hzflag := (appropriate_iff_not_flag q z hq).mp hzappr
    rcases markKbContent_fields z with ⟨_, _, _, _, _, he⟩
    rw [he]
    exact hzflag

/-! ## Lemmas: symptom advice, metric alerts and the fusion block -/

/-- With no emergency detected, every symptom-advice answer is either a
registered template or the generic diagnosis answer. -/
theorem master_generate_advice_in_mem (registry : List (String × SymptomDef))
    (symptoms : List (String × Bool)) (oq q : String) (m : Option SystemMetrics)
    (hchk : check_emergency_situation q = none) :
    ∀ a ∈ master_generate_advice_in registry symptoms oq q m,
      (∃ nd ∈ registry, nd.2.expert_advice = some a) ∨ a = genericAdviceAnswer oq := by
  intro a ha
  unfold master_generate_advice_in at ha
  dsimp only at ha
  rw [hchk, ite_self] at ha
  simp only at ha
  split at ha
  · exact Or.inr (List.mem_singleton.mp ha)
  · rcases List.mem_filterMap.mp ha with ⟨nb, _, heq⟩
    split at heq
    · rcases hlk : lookupSymptomDefIn registry nb.1 with _ | d
      · rw [hlk] at heq; exact absurd heq (by simp)
      · rw [hlk] at heq
        unfold lookupSymptomDefIn at hlk
        rcases hfd : registry.find? (fun nd => nd.1 = nb.1) with _ | nd
        · rw [hfd] at hlk; exact absurd hlk (by simp)
        · rw [hfd] at hlk
          refine Or.inl ⟨nd, List.mem_of_find?_eq_some hfd, ?_⟩
          rcases Option.some.inj hlk with rfl
          exact heq
    · exact absurd heq (by simp)

/-- The loaded registry's templates are all well-shaped expert diagnoses. -/
theorem SYMPTOM_DEFINITIONS_advice_ok : registryAdviceOK SYMPTOM_DEFINITIONS = true := by
  decide

/-- Shape of the advice templates of a checked registry. -/
theorem registry_advice_shape (registry : List (String × SymptomDef))
    (hreg : registryAdviceOK registry = true) :
    ∀ nd ∈ registry, ∀ a, nd.2.expert_advice = some a →
      answerOKb a = true ∧ a.type = "expert_diagnosis" := by
  intro nd hnd a hea
  have h := List.all_eq_true.mp hreg nd hnd
  rw [hea] at h
  simp only [Bool.and_eq_true, beq_iff_eq] at h
  exact h

/-- The generic diagnosis answer is well shaped. -/
theorem genericAdviceAnswer_ok (oq : String) : answerOKb (genericAdviceAnswer oq) = true := rfl

/-- The preventive answer is well shaped. -/
theorem preventiveAnswer_ok (maint : List String) :
    answerOKb (preventiveAnswer maint) = true := rfl

/-- With no emergency detected and a checked registry, every symptom-advice
answer is well shaped. -/
theorem master_generate_advice_in_ok (registry : List (String × SymptomDef))
    (symptoms : List (String × Bool)) (oq q : String) (m : Option SystemMetrics)
    (hchk : check_emergency_situation q = none)
    (hreg : registryAdviceOK registry = true) :
    ∀ a ∈ master_generate_advice_in registry symptoms oq q m, answerOKb a = true := by
  intro a ha
  rcases master_generate_advice_in_mem registry symptoms oq q m hchk a ha with
    ⟨nd, hnd, hea⟩ | rfl
  · exact (registry_advice_shape registry hreg nd hnd a hea).1
  · exact genericAdviceAnswer_ok oq

/-- Every metric alert is well shaped. -/
theorem generate_metric_advice_ok (ms : SystemMetrics) :
    ∀ a ∈ generate_metric_advice ms, answerOKb a = true := by
  intro a ha
  unfold generate_metric_advice at ha
  rcases List.mem_append.mp ha with h | h
  · rcases List.mem_append.mp h with h2 | h2
    · split at h2
      · rw [List.mem_singleton.mp h2]; rfl
      · exact absurd h2 (List.not_mem_nil a)
    · split at h2
      · rw [List.mem_singleton.mp h2]; rfl
      · exact absurd h2 (List.not_mem_nil a)
  · split at h
    · rw [List.mem_singleton.mp h]; rfl
    · exact absurd h (List.not_mem_nil a)

/-- The merge step only emits retained knowledge matches and symptom advice. -/
theorem mergeKbSymptom_forall (P : Answer → Prop) (registry : List (String × SymptomDef))
    (symptoms : List (String × Bool)) (question q : String) (m : Option SystemMetrics)
    (best_kb : List Answer)
    (hmaster : ∀ a ∈ master_generate_advice_in registry symptoms question q m, P a)
    (hkb : ∀ x ∈ best_kb, P x) :
    ∀ a ∈ mergeKbSymptom registry symptoms question q m best_kb, P a := by
  intro a ha
  unfold mergeKbSymptom at ha
  dsimp only at ha
  split at ha
  · rcases List.mem_append.mp ha with h | h
    · exact hkb a h
    · exact hmaster a (List.mem_filter.mp h).1
  · exact hmaster a ha

/-- The metric step only adds metric alerts. -/
theorem addMetricAlerts_forall (P : Answer → Prop) (symptoms : List (String × Bool))
    (m : Option SystemMetrics) (answers : List Answer)
    (hmetric : ∀ ms : SystemMetrics, ∀ al ∈ generate_metric_advice ms, P al)
    (hans : ∀ x ∈ answers, P x) :
    ∀ a ∈ addMetricAlerts symptoms m answers, P a := by
  intro a ha
  unfold addMetricAlerts at ha
  match m with
  | none => exact hans a ha
  | some ms =>
    rcases List.mem_append.mp ha with h | h
    · exact hans a h
    · exact hmetric ms a (List.mem_filter.mp h).1

/-- The preventive step only adds the preventive answer. -/
theorem addPreventive_forall (P : Answer → Prop) (symptoms : List (String × Bool))
    (question : String) (answers : List Answer)
    (hprev : ∀ maint : List String, P (preventiveAnswer maint))
    (hans : ∀ x ∈ answers, P x) :
    ∀ a ∈ addPreventive symptoms question answers, P a := by
  intro a ha
  unfold addPreventive at ha
  dsimp only at ha
  repeat' split at ha
  all_goals
    first
    | exact hans a ha
    | (rcases List.mem_append.mp ha with h | h
       · exact hans a h
       · rw [List.mem_singleton.mp h]; exact hprev _)

/-- The weak-match replacement step only adds symptom advice. -/
theorem replaceWeak_forall (P : Answer → Prop) (registry : List (String × SymptomDef))
    (symptoms : List (String × Bool)) (question q : String) (m : Option SystemMetrics)
    (answers : List Answer)
    (hmaster : ∀ a ∈ master_generate_advice_in registry symptoms question q m, P a)
    (hans : ∀ x ∈ answers, P x) :
    ∀ a ∈ replaceWeak registry symptoms question q m answers, P a := by
  intro a ha
  unfold replaceWeak at ha
  dsimp only at ha
  split at ha
  · split at ha
    · rcases List.mem_append.mp ha with h | h
      · exact hmaster a h
      · exact hans a (List.mem_filter.mp h).1
    · exact hans a ha
  · exact hans a ha

/-- The whole fusion block only emits retained knowledge matches, symptom
advice, metric alerts and the preventive answer. -/
theorem fuseAnswers_forall (P : Answer → Prop) (registry : List (String × SymptomDef))
    (symptoms : List (String × Bool)) (question q : String) (m : Option SystemMetrics)
    (best_kb : List Answer)
    (hmaster : ∀ a ∈ master_generate_advice_in registry symptoms question q m, P a)
    (hkb : ∀ x ∈ best_kb, P x)
    (hmetric : ∀ ms : SystemMetrics, ∀ al ∈ generate_metric_advice ms, P al)
    (hprev : ∀ maint : List String, P (preventiveAnswer maint)) :
    ∀ a ∈ fuseAnswers registry symptoms question q m best_kb, P a := by
  unfold fuseAnswers
  exact replaceWeak_forall P registry symptoms question q m _ hmaster
    (addPreventive_forall P symptoms question _ hprev
      (addMetricAlerts_forall P symptoms m _ hmetric
        (mergeKbSymptom_forall P registry symptoms question q m best_kb hmaster hkb)))

/-- The whole fusion block emits only well-shaped answers, when no emergency
was detected and the registry is checked. -/
theorem fuseAnswers_ok (registry : List (String × SymptomDef))
    (symptoms : List (String × Bool)) (question q : String) (m : Option SystemMetrics)
    (best_kb : List Answer)
    (hchk : check_emergency_situation q = none)
    (hreg : registryAdviceOK registry = true)
    (hkb : ∀ x ∈ best_kb, answerOKb x = true) :
    ∀ a ∈ fuseAnswers registry symptoms question q m best_kb, answerOKb a = true :=
  fuseAnswers_forall (fun a => answerOKb a = true) registry symptoms question q m best_kb
    (master_generate_advice_in_ok registry symptoms question q m hchk hreg) hkb
    (fun ms => generate_metric_advice_ok ms)
    (fun maint => preventiveAnswer_ok maint)

/-! ## Lemmas: the final ranking stage -/

/-- Everything `finalizeAnswers` returns is an input answer or the fallback. -/
theorem mem_finalizeAnswers (answers : List Answer) :
    ∀ x ∈ finalizeAnswers answers, x ∈ answers ∨ x = fallback_answer := by
  intro x hx
  unfold finalizeAnswers at hx
  dsimp only at hx
  split at hx
  · have h1 : x ∈ dedupAnswers (sortDesc finalSortKey answers) [] :=
      List.take_subset 4 _ hx
    have h2 : x ∈ sortDesc finalSortKey answers :=
      (dedupAnswers_sublist _ []).subset h1
    exact Or.inl ((mem_sortDesc finalSortKey answers x).mp h2)
  · exact Or.inr (List.mem_singleton.mp hx)

/-- The final list is never empty. -/
theorem finalizeAnswers_ne_nil (answers : List Answer) :
    finalizeAnswers answers ≠ [] := by
  unfold finalizeAnswers
  dsimp only
  split
  · rename_i hne
    intro hnil
    rcases hu : dedupAnswers (sortDesc finalSortKey answers) [] with _ | ⟨u, us⟩
    · rw [hu] at hne; exact hne rfl
    · rw [hu] at hnil
      simp [List.take] at hnil
  · simp

/-- The final list has at most four answers. -/
theorem finalizeAnswers_len (answers : List Answer) :
    (finalizeAnswers answers).length ≤ 4 := by
  unfold finalizeAnswers
  dsimp only
  split
  · rw [List.length_take]
    exact min_le_left 4 _
  · simp

/-- The final list carries pairwise distinct deduplication keys. -/
theorem finalizeAnswers_nodup (answers : List Answer) :
    (finalizeAnswers answers).Pairwise (fun a b => dedupKey a ≠ dedupKey b) := by
  unfold finalizeAnswers
  dsimp only
  split
  · exact (dedupAnswers_pairwise _ []).sublist (List.take_sublist 4 _)
  · simp

/-- The final list is non-increasing in the final sort key. -/
theorem finalizeAnswers_sorted (answers : List Answer) :
    (finalizeAnswers answers).Pairwise
      (fun a b => keyLT (finalSortKey a) (finalSortKey b) = false) := by
  unfold finalizeAnswers
  dsimp only
  split
  · exact ((pairwise_sortDesc finalSortKey answers).sublist
      (dedupAnswers_sublist _ [])).sublist (List.take_sublist 4 _)
  · simp

/-! ## Lemmas: the whole pipeline -/

/-- Unfolding of a well-shaped answer. -/
theorem answerOKb_eq_true_iff (a : Answer) : answerOKb a = true ↔
    (a.type ∈ ["kb_match", "expert_diagnosis", "expert_generic", "metric_alert", "preventive"] ∧
     a.priority ∈ priorityTiers ∧ a.confidence ∈ confidenceTiers ∧
     a.category.isSome = true) := by
  simp [answerOKb, and_assoc]

/-- Every retained knowledge match of a real scan is well shaped. -/
theorem bestKb_of_kbMatches_ok (facts : List CategoryFact) (q oq : String)
    (sm : Option SystemMetrics) :
    ∀ x ∈ bestKbMatches q (kbMatchesOf facts q oq sm), answerOKb x = true := by
  intro x hx
  rcases bestKbMatches_core q _ x hx with ⟨y, hy, ht, hc, hcf, hp, _, _⟩
  rcases kbMatchesOf_shape facts q oq sm y hy with ⟨hyt, hyp, hycf, hyc, _⟩
  rw [answerOKb_eq_true_iff]
  refine ⟨?_, ?_, ?_, ?_⟩
  · rw [ht, hyt]; simp
  · rw [hp]; exact hyp
  · rw [hcf]
    have h3 : y.confidence = "perfect" ∨ y.confidence = "high" ∨ y.confidence = "medium" := by
      simpa using hycf
    rcases h3 with h | h | h <;> rw [h] <;> simp [confidenceTiers]
  · rw [hc]; exact hyc

/-- When the emergency scan fires, the pipeline returns that answer alone. -/
theorem enhanced_reason_of_check_some (facts : List CategoryFact) (question : String)
    (m : Option SystemMetrics) (e : Answer)
    (hchk : check_emergency_situation (pyStrip (pyLower question)) = some e) :
    enhanced_reason facts question m = [e] := by
  unfold enhanced_reason enhanced_reason_in
  dsimp only
  rw [hchk]

/-- The emergency scan only ever returns the fixed emergency answer. -/
theorem check_some_eq (q : String) (e : Answer)
    (hchk : check_emergency_situation q = some e) : e = emergencyAnswer := by
  unfold check_emergency_situation at hchk
  split at hchk
  · exact (Option.some.inj hchk).symm
  · exact absurd hchk (by simp)

/-- With no emergency, every produced answer is well shaped or the fallback. -/
theorem enhanced_reason_shape_noEmergency (facts : List CategoryFact) (question : String)
    (m : Option SystemMetrics)
    (hchk : check_emergency_situation (pyStrip (pyLower question)) = none) :
    ∀ a ∈ enhanced_reason facts question m, answerOKb a = true ∨ a = fallback_answer := by
  intro a ha
  unfold enhanced_reason enhanced_reason_in at ha
  dsimp only at ha
  rw [hchk] at ha
  simp only at ha
  rcases mem_finalizeAnswers _ a ha with h | rfl
  · unfold filter_irrelevant_answers at h
    dsimp only at h
    refine Or.inl (fuseAnswers_ok SYMPTOM_DEFINITIONS _ question (pyStrip (pyLower question))
      m _ hchk SYMPTOM_DEFINITIONS_advice_ok
      (bestKb_of_kbMatches_ok facts (pyStrip (pyLower question)) question m) a
      (List.mem_filter.mp h).1)
  · exact Or.inr rfl

/-- Every produced answer is well shaped, the fallback, or the emergency. -/
theorem enhanced_reason_shape (facts : List CategoryFact) (question : String)
    (m : Option SystemMetrics) :
    ∀ a ∈ enhanced_reason facts question m,
      answerOKb a = true ∨ a = fallback_answer ∨ a = emergencyAnswer := by
  rcases hchk : check_emergency_situation (pyStrip (pyLower question)) with _ | e
  · intro a ha
    rcases enhanced_reason_shape_noEmergency facts question m hchk a ha with h | h
    · exact Or.inl h
    · exact Or.inr (Or.inl h)
  · intro a ha
    rw [enhanced_reason_of_check_some facts question m e hchk] at ha
    rw [List.mem_singleton.mp ha, check_some_eq _ e hchk]
    exact Or.inr (Or.inr rfl)

/-- With no emergency, the pipeline is knowledge matching, fusion, pruning
and finalization. -/
theorem enhanced_reason_of_check_none (facts : List CategoryFact) (question : String)
    (m : Option SystemMetrics)
    (hchk : check_emergency_situation (pyStrip (pyLower question)) = none) :
    enhanced_reason facts question m =
      finalizeAnswers (filter_irrelevant_answers
        (fuseAnswers SYMPTOM_DEFINITIONS
          (extract_all_symptoms_in SYMPTOM_DEFINITIONS (pyStrip (pyLower question)))
          question (pyStrip (pyLower question)) m
          (bestKbMatches (pyStrip (pyLower question))
            (kbMatchesOf facts (pyStrip (pyLower question)) question m)))
        (pyStrip (pyLower question))
        (extract_all_symptoms_in SYMPTOM_DEFINITIONS (pyStrip (pyLower question)))) := by
  unfold enhanced_reason enhanced_reason_in
  dsimp only
  rw [hchk]

/-- The fallback answer is not well shaped (its type is the fallback tag). -/
theorem fallback_not_ok : answerOKb fallback_answer = false := by decide

/-- A finalized list containing the fallback, over answers that do not
contain it, is exactly the fallback singleton. -/
theorem finalizeAnswers_eq_fallback (answers : List Answer)
    (hno : fallback_answer ∉ answers)
    (hmem : fallback_answer ∈ finalizeAnswers answers) :
    finalizeAnswers answers = [fallback_answer] := by
  by_cases hu : (dedupAnswers (sortDesc finalSortKey answers) []).isEmpty = true
  · unfold finalizeAnswers
    dsimp only
    rw [if_neg (by simp [hu])]
  · exfalso
    unfold finalizeAnswers at hmem
    dsimp only at hmem
    rw [if_pos (by simp [hu])] at hmem
    exact hno ((mem_sortDesc finalSortKey answers fallback_answer).mp
      ((dedupAnswers_sublist _ []).subset (List.take_subset 4 _ hmem)))

/-! ## The claims -/

/-- C1: whenever a hazard word of the fixed emergency pattern list matches
the normalized query under word-boundary matching, `enhanced_reason` returns
exactly the one fixed emergency answer, whose type is "emergency", priority
"CRITICAL" and confidence "perfect"; and in every output whatsoever an
answer of type "emergency" is the entire output. -/
theorem C1_emergency_sole_output (facts : List CategoryFact) (question : String)
    (m : Option SystemMetrics) :
    ((emergency_patterns.any (fun pat =>
        regexBoundarySearch pat (pyStrip (pyLower question)))) = true →
      enhanced_reason facts question m = [emergencyAnswer] ∧
      emergencyAnswer.type = "emergency" ∧ emergencyAnswer.priority = "CRITICAL" ∧
      emergencyAnswer.confidence = "perfect") ∧
    (∀ a ∈ enhanced_reason facts question m, a.type = "emergency" →
      enhanced_reason facts question m = [a]) := by
  constructor
  · intro h
    refine ⟨?_, rfl, rfl, rfl⟩
    refine enhanced_reason_of_check_some facts question m emergencyAnswer ?_
    unfold check_emergency_situation
    rw [if_pos h]
  · intro a ha hat
    rcases hchk : check_emergency_situation (pyStrip (pyLower question)) with _ | e
    · rcases enhanced_reason_shape_noEmergency facts question m hchk a ha with h | rfl
      · rcases (answerOKb_eq_true_iff a).mp h with ⟨hty, _⟩
        rw [hat] at hty
        simp at hty
      · exact absurd hat (by decide)
    · rw [enhanced_reason_of_check_some facts question m e hchk] at ha ⊢
      rw [List.mem_singleton.mp ha]

/-- Witness for C1 at a concrete hazard query. -/
theorem C1_emergency_sole_output_witness :
    (emergency_patterns.any (fun pat =>
      regexBoundarySearch pat (pyStrip (pyLower "there is smoke coming from my pc")))) = true ∧
    enhanced_reason [] "there is smoke coming from my pc" none = [emergencyAnswer] :=
  ⟨by decide,
   ((C1_emergency_sole_output [] "there is smoke coming from my pc" none).1 (by decide)).1⟩

/-- C2: the result always has at most 4 answers, and no two of them agree on
both the type tag and the lower-cased first-150-character content preview
(the content address whose hash the source deduplicates on). -/
theorem C2_length_and_dedup (facts : List CategoryFact) (question : String)
    (m : Option SystemMetrics) :
    (enhanced_reason facts question m).length ≤ 4 ∧
    (enhanced_reason facts question m).Pairwise (fun a b =>
      ¬ (a.type = b.type ∧ pyLower (pyTake 150 a.content) = pyLower (pyTake 150 b.content))) := by
  rcases hchk : check_emergency_situation (pyStrip (pyLower question)) with _ | e
  · rw [enhanced_reason_of_check_none facts question m hchk]
    refine ⟨finalizeAnswers_len _, ?_⟩
    refine (finalizeAnswers_nodup _).imp ?_
    intro a b hk ⟨h1, h2⟩
    exact hk (by unfold dedupKey; rw [h1, h2])
  · rw [enhanced_reason_of_check_some facts question m e hchk]
    exact ⟨by simp, by simp⟩

/-- C4: the result list is non-increasing under the lexicographic key
(priority tier, relevance score, confidence tier, match score), with absent
scores counting 0. -/
theorem C4_result_sorted (facts : List CategoryFact) (question : String)
    (m : Option SystemMetrics) :
    (enhanced_reason facts question m).Pairwise (fun a b =>
      keyLE (finalSortKey b) (finalSortKey a) = true) := by
  rcases hchk : check_emergency_situation (pyStrip (pyLower question)) with _ | e
  · rw [enhanced_reason_of_check_none facts question m hchk]
    exact (finalizeAnswers_sorted _).imp (fun h => keyLE_of_keyLT_false h)
  · rw [enhanced_reason_of_check_some facts question m e hchk]
    simp

/-- C8: the result is never empty; when a "need_more_info" answer occurs it
is the single fixed fallback answer, produced exactly when nothing survived
the pipeline. -/
theorem C8_never_empty_fallback (facts : List CategoryFact) (question : String)
    (m : Option SystemMetrics) :
    enhanced_reason facts question m ≠ [] ∧
    (∀ a ∈ enhanced_reason facts question m, a.type = "need_more_info" →
      enhanced_reason facts question m = [fallback_answer]) := by
  constructor
  · rcases hchk : check_emergency_situation (pyStrip (pyLower question)) with _ | e
    · rw [enhanced_reason_of_check_none facts question m hchk]
      exact finalizeAnswers_ne_nil _
    · rw [enhanced_reason_of_check_some facts question m e hchk]
      simp
  · intro a ha hat
    rcases hchk : check_emergency_situation (pyStrip (pyLower question)) with _ | e
    · rcases enhanced_reason_shape_noEmergency facts question m hchk a ha with h | rfl
      · rcases (answerOKb_eq_true_iff a).mp h with ⟨hty, _⟩
        rw [hat] at hty
        simp at hty
      · rw [enhanced_reason_of_check_none facts question m hchk] at ha ⊢
        refine finalizeAnswers_eq_fallback _ ?_ ha
        intro hmem
        have h2 := fuseAnswers_ok SYMPTOM_DEFINITIONS _ question (pyStrip (pyLower question))
          m _ hchk SYMPTOM_DEFINITIONS_advice_ok
          (bestKb_of_kbMatches_ok facts (pyStrip (pyLower question)) question m)
          fallback_answer (by
            unfold filter_irrelevant_answers at hmem
            dsimp only at hmem
            exact (List.mem_filter.mp hmem).1)
        rw [fallback_not_ok] at h2
        exact absurd h2 (by simp)
    · rw [enhanced_reason_of_check_some facts question m e hchk] at ha
      rw [List.mem_singleton.mp ha, check_some_eq _ e hchk] at hat
      exact absurd hat (by decide)

/-- C9: a call to the engine leaves the ambient state — the knowledge-base
facts list and the symptom registry with all its advice templates — exactly
as it was: the source performs no write to either. -/
theorem C9_state_unchanged (st : EngineState) (question : String)
    (m : Option SystemMetrics) :
    (enhanced_reason_st st question m).2 = st ∧
    (enhanced_reason_st st question m).2.facts = st.facts ∧
    (enhanced_reason_st st question m).2.registry = st.registry :=
  ⟨rfl, rfl, rfl⟩

/-- C10 counterexample: on the query "fire" the single produced answer is the
emergency answer, which carries no category key — refuting the claim that
every produced answer carries a category label. -/
theorem C10_counterexample :
    enhanced_reason [] "fire" none = [emergencyAnswer] ∧ emergencyAnswer.category = none :=
  ⟨by decide, rfl⟩

/-- C10 (amended): every produced answer carries its type tag, content,
confidence tier and priority tier (these fields are total), the priority and
confidence always being one of the documented tiers; and every answer except
the emergency answer also carries a category. -/
theorem C10_answer_fields (facts : List CategoryFact) (question : String)
    (m : Option SystemMetrics) :
    ∀ a ∈ enhanced_reason facts question m,
      a.priority ∈ priorityTiers ∧ a.confidence ∈ confidenceTiers ∧
      (a.category.isSome = true ∨ a = emergencyAnswer) := by
  intro a ha
  rcases enhanced_reason_shape facts question m a ha with h | rfl | rfl
  · rcases (answerOKb_eq_true_iff a).mp h with ⟨_, hp, hc, hcat⟩
    exact ⟨hp, hc, Or.inl hcat⟩
  · exact ⟨by decide, by decide, Or.inl rfl⟩
  · exact ⟨by decide, by decide, Or.inr rfl⟩

/-- Witness for C10 (amended) at the emergency output of the query "fire". -/
theorem C10_answer_fields_witness :
    emergencyAnswer ∈ enhanced_reason [] "fire" none ∧
    (emergencyAnswer.priority ∈ priorityTiers ∧
     emergencyAnswer.confidence ∈ confidenceTiers ∧
     (emergencyAnswer.category.isSome = true ∨ emergencyAnswer = emergencyAnswer)) := by
  have he : enhanced_reason [] "fire" none = [emergencyAnswer] := by decide
  have hmem : emergencyAnswer ∈ enhanced_reason [] "fire" none := by
    rw [he]; exact List.mem_cons_self _ _
  exact ⟨hmem, C10_answer_fields [] "fire" none emergencyAnswer hmem⟩

/-- C5 counterexample: the keyword-match score is normalized by its first
argument's keyword count, so it is not symmetric — on ("alpha",
"alpha beta") it answers 1 one way and 1/2 the other. -/
theorem C5_counterexample :
    calculate_keyword_match "alpha" "alpha beta" ≠
      calculate_keyword_match "alpha beta" "alpha" := by decide

/-- C5 (amended): the similarity score is symmetric, and both the similarity
and the keyword-match scores always lie in [0, 1]; the keyword-match score
however is not symmetric in its two arguments. -/
theorem C5_symmetry_and_range (a b : String) :
    calculate_similarity a b = calculate_similarity b a ∧
    0 ≤ calculate_similarity a b ∧ calculate_similarity a b ≤ 1 ∧
    0 ≤ calculate_keyword_match a b ∧ calculate_keyword_match a b ≤ 1 := by
  refine ⟨?_, ?_, ?_, ?_, ?_⟩
  · unfold calculate_similarity
    exact if_congr and_comm (by rw [Finset.inter_comm, Finset.union_comm]) rfl
  · unfold calculate_similarity
    dsimp only
    split
    · rw [qdiv_eq]
      positivity
    · exact le_refl 0
  · unfold calculate_similarity
    dsimp only
    split
    · rename_i hc
      rw [qdiv_eq]
      rcases hc with ⟨ha, _⟩
      have hpos : 0 < ((wordFinset a ∪ wordFinset b).card : ℚ) := by
        have : 0 < (wordFinset a ∪ wordFinset b).card :=
          Finset.card_pos.mpr (Finset.Nonempty.inl (Finset.nonempty_iff_ne_empty.mpr ha))
        exact_mod_cast this
      rw [div_le_one hpos]
      exact_mod_cast Finset.card_le_card Finset.inter_subset_union
    · exact zero_le_one
  · unfold calculate_keyword_match
    dsimp only
    split
    · exact le_refl 0
    · refine le_min ?_ zero_le_one
      rw [qdiv_eq]
      positivity
  · unfold calculate_keyword_match
    dsimp only
    split
    · exact zero_le_one
    · exact min_le_right _ 1

/-- C6 counterexample: on a perfect-score power-flavoured candidate and a
power query, the boost applies but the computed relevance is 1, not
match_score + 0.3 = 1.3 — the code also clamps from above at 1. -/
theorem C6_counterexample :
    (["won't turn on", "no power", "dead", "not powering on", "wont turn on"].any
      (fun p => strContains "wont turn on" p)) = true ∧
    strContains (pyLower c6match.content) "power" = true ∧
    c6match.is_emergency_content.getD false = false ∧
    calculate_query_relevance c6match "wont turn on" ≠
      c6match.match_score.getD 0 + mkRat 3 10 := by
  refine ⟨by decide, by decide, by decide, ?_⟩
  have h1 : calculate_query_relevance c6match "wont turn on" = 1 := by decide
  have h2 : c6match.match_score.getD 0 = 1 := rfl
  rw [h1, h2, Rat.mkRat_eq_div]
  norm_num

/-- C6 (amended): the computed relevance score equals the candidate's match
score, plus 0.3 under the power-failure boost condition, minus 0.4 under the
hazard-content penalty condition, clamped into [0, 1] — never below 0 and
never above 1. -/
theorem C6_relevance_formula (m : Answer) (query : String) :
    calculate_query_relevance m query = max 0 (min 1 (spec_relevance_raw m query)) := by
  unfold calculate_query_relevance spec_relevance_raw
  dsimp only
  split_ifs <;> simp only [qadd_eq, qsub_eq, add_zero, sub_zero]

/-- Witness for C8: a high-CPU query whose only knowledge match files under
the Peripheral category is pruned to nothing, so the fallback is returned. -/
theorem C8_never_empty_fallback_witness :
    fallback_answer ∈ enhanced_reason c8facts "high cpu usage always" none ∧
    fallback_answer.type = "need_more_info" ∧
    enhanced_reason c8facts "high cpu usage always" none = [fallback_answer] := by
  have he : enhanced_reason c8facts "high cpu usage always" none = [fallback_answer] := by
    decide
  have hmem : fallback_answer ∈ enhanced_reason c8facts "high cpu usage always" none := by
    rw [he]; exact List.mem_cons_self _ _
  exact ⟨hmem, rfl,
    (C8_never_empty_fallback c8facts "high cpu usage always" none).2 fallback_answer hmem rfl⟩

/-- Every metric alert carries the `metric_alert` type tag. -/
theorem generate_metric_advice_type (ms : SystemMetrics) :
    ∀ a ∈ generate_metric_advice ms, a.type = "metric_alert" := by
  intro a ha
  unfold generate_metric_advice at ha
  rcases List.mem_append.mp ha with h | h
  · rcases List.mem_append.mp h with h2 | h2
    · split at h2
      · rw [List.mem_singleton.mp h2]
      · exact absurd h2 (List.not_mem_nil a)
    · split at h2
      · rw [List.mem_singleton.mp h2]
      · exact absurd h2 (List.not_mem_nil a)
  · split at h
    · rw [List.mem_singleton.mp h]
    · exact absurd h (List.not_mem_nil a)

/-- With no emergency and a checked registry, no symptom-advice answer is
typed as a knowledge match. -/
theorem master_generate_advice_in_not_kb (registry : List (String × SymptomDef))
    (symptoms : List (String × Bool)) (oq q : String) (m : Option SystemMetrics)
    (hchk : check_emergency_situation q = none)
    (hreg : registryAdviceOK registry = true) :
    ∀ a ∈ master_generate_advice_in registry symptoms oq q m, a.type ≠ "kb_match" := by
  intro a ha
  rcases master_generate_advice_in_mem registry symptoms oq q m hchk a ha with
    ⟨nd, hnd, hea⟩ | rfl
  · rw [(registry_advice_shape registry hreg nd hnd a hea).2]
    decide
  · rw [show (genericAdviceAnswer oq).type = "expert_generic" from rfl]
    decide

/-- C3 counterexample: on the hazard-free query "alpha beta problem" against
a knowledge base whose only candidate is hazard-flavoured, the top-1
fallback of the selection stage surfaces that hazard-flagged entry as a
`kb_match` answer — refuting the claim as stated. -/
theorem C3_counterexample :
    hazardFreeQuery (pyStrip (pyLower "alpha beta problem")) = true ∧
    (enhanced_reason c3facts "alpha beta problem" none).any
      (fun a => a.type == "kb_match" && a.is_emergency_content.getD false) = true :=
  ⟨by decide, by decide⟩

/-- C3 (amended): for every hazard-free query, as long as at least one match
candidate is not hazard-flagged, no hazard-flagged entry appears among the
`kb_match` answers; the exception the counterexample forces is the last
resort of the selection stage, when every candidate is hazard-flagged. -/
theorem C3_no_hazard_content (facts : List CategoryFact) (question : String)
    (m : Option SystemMetrics)
    (hq : hazardFreeQuery (pyStrip (pyLower question)) = true)
    (hex : ∃ y ∈ kbMatchesOf facts (pyStrip (pyLower question)) question m,
      y.is_emergency_content.getD false = false) :
    ∀ a ∈ enhanced_reason facts question m, a.type = "kb_match" →
      a.is_emergency_content.getD false = false := by
  intro a ha hat
  rcases hchk : check_emergency_situation (pyStrip (pyLower question)) with _ | e
  · rw [enhanced_reason_of_check_none facts question m hchk] at ha
    rcases mem_finalizeAnswers _ a ha with h | rfl
    · unfold filter_irrelevant_answers at h
      dsimp only at h
      refine fuseAnswers_forall
        (fun x => x.type = "kb_match" → x.is_emergency_content.getD false = false)
        SYMPTOM_DEFINITIONS _ question (pyStrip (pyLower question)) m _
        (fun x hx ht => absurd ht (master_generate_advice_in_not_kb SYMPTOM_DEFINITIONS _
          question (pyStrip (pyLower question)) m hchk SYMPTOM_DEFINITIONS_advice_ok x hx))
        (fun x hx _ => bestKbMatches_no_hazard (pyStrip (pyLower question)) _ hq hex x hx)
        (fun ms al hal ht => absurd ht (by
          rw [generate_metric_advice_type ms al hal]; decide))
        (fun maint ht => by
          rw [show (preventiveAnswer maint).type = "preventive" from rfl] at ht
          exact absurd ht (by decide))
        a (List.mem_filter.mp h).1 hat
    · exact absurd hat (by decide)
  · rw [enhanced_reason_of_check_some facts question m e hchk] at ha
    rw [List.mem_singleton.mp ha, check_some_eq _ e hchk] at hat
    exact absurd hat (by decide)

/-- Witness for C3 at a hazard-free query with one hazard-flavoured and one
plain candidate. -/
theorem C3_no_hazard_content_witness :
    hazardFreeQuery (pyStrip (pyLower "alpha beta problem")) = true ∧
    (∃ y ∈ kbMatchesOf c3wfacts (pyStrip (pyLower "alpha beta problem"))
        "alpha beta problem" none, y.is_emergency_content.getD false = false) ∧
    ∀ a ∈ enhanced_reason c3wfacts "alpha beta problem" none, a.type = "kb_match" →
      a.is_emergency_content.getD false = false :=
  ⟨by decide, by decide,
   C3_no_hazard_content c3wfacts "alpha beta problem" none (by decide) (by decide)⟩

/-! ## Lemmas: the worked no-power example -/

/-- The example query is already lower-case and stripped. -/
theorem noPowerQuery_norm : pyStrip (pyLower noPowerQuery) = noPowerQuery := by decide

/-- The example query triggers no hazard pattern. -/
theorem noPowerQuery_check : check_emergency_situation noPowerQuery = none := by decide

/-- On the example query the symptom advice is exactly the no-power record. -/
theorem noPowerQuery_master :
    master_generate_advice_in SYMPTOM_DEFINITIONS
      (extract_all_symptoms_in SYMPTOM_DEFINITIONS noPowerQuery)
      noPowerQuery noPowerQuery none = [noPowerAdvice] := by decide

/-- The example query yields no preventive-maintenance advice. -/
theorem noPowerQuery_maint :
    get_preventive_maintenance_advice
      { question := noPowerQuery, answer := "", category := "Maintenance" } = [] := by decide

/-- The first detected non-emergency symptom of the example query is
`no_power`. -/
theorem noPowerQuery_main_symptom :
    ((extract_all_symptoms_in SYMPTOM_DEFINITIONS noPowerQuery).find?
      (fun nb => nb.2 ∧ nb.1 ≠ "emergency")).map (fun nb => nb.1) = some "no_power" := by
  decide

/-- Next to fewer than three knowledge matches the no-power advice always
adds value (its priority is HIGH). -/
theorem should_enhance_noPower (kb : List Answer) (hne : kb ≠ [])
    (hlen : kb.length < 3) :
    should_enhance_with_symptom_advice kb noPowerAdvice = true := by
  unfold should_enhance_with_symptom_advice
  rw [if_neg (by omega)]
  split
  · rfl
  · dsimp only
    rcases kb with _ | ⟨a, t⟩
    · exact absurd rfl hne
    · refine List.any_eq_true.mpr ⟨a, List.mem_cons_self a t, ?_⟩
      exact decide_eq_true (Or.inr (Or.inr (Or.inl (by decide))))

/-- Merging on the example query: the retained matches followed by the
no-power record, the record standing alone when nothing was retained. -/
theorem mergeKb_noPower (best_kb : List Answer) (hlen : best_kb.length ≤ 2) :
    mergeKbSymptom SYMPTOM_DEFINITIONS
      (extract_all_symptoms_in SYMPTOM_DEFINITIONS noPowerQuery)
      noPowerQuery noPowerQuery none best_kb =
    if best_kb.isEmpty then [noPowerAdvice] else best_kb ++ [noPowerAdvice] := by
  unfold mergeKbSymptom
  dsimp only
  rw [noPowerQuery_master]
  by_cases he : best_kb.isEmpty
  · rw [if_neg (by simp [he]), if_pos he]
  · rw [if_pos he, if_neg he]
    have hne : best_kb ≠ [] := by
      intro h
      rw [h] at he
      exact he rfl
    have hsh : should_enhance_with_symptom_advice best_kb noPowerAdvice = true :=
      should_enhance_noPower best_kb hne (by omega)
    simp [List.filter_cons, hsh]

/-- With no maintenance advice for the example query, the preventive step is
a no-op. -/
theorem addPrev_noPower (answers : List Answer) :
    addPreventive (extract_all_symptoms_in SYMPTOM_DEFINITIONS noPowerQuery)
      noPowerQuery answers = answers := by
  unfold addPreventive
  dsimp only
  rw [noPowerQuery_maint]
  simp

/-- Steps 5–8 on the example query: the retained matches followed by the
no-power record; with nothing retained, the weak-match replacement doubles
the record. -/
theorem fuse_noPower (best_kb : List Answer) (hlen : best_kb.length ≤ 2) :
    fuseAnswers SYMPTOM_DEFINITIONS
      (extract_all_symptoms_in SYMPTOM_DEFINITIONS noPowerQuery)
      noPowerQuery noPowerQuery none best_kb =
    if best_kb.isEmpty then [noPowerAdvice, noPowerAdvice]
    else best_kb ++ [noPowerAdvice] := by
  unfold fuseAnswers
  rw [mergeKb_noPower best_kb hlen]
  by_cases he : best_kb.isEmpty
  · rw [if_pos he, if_pos he]
    decide
  · rw [if_neg he, if_neg he]
    have hmet : addMetricAlerts (extract_all_symptoms_in SYMPTOM_DEFINITIONS noPowerQuery)
        none (best_kb ++ [noPowerAdvice]) = best_kb ++ [noPowerAdvice] := rfl
    rw [hmet, addPrev_noPower]
    unfold replaceWeak
    dsimp only
    split
    · rename_i hcond
      exfalso
      rcases hcond with h | ⟨h1, _⟩
      · simp at h
      · rw [List.length_append] at h1
        simp at h1
        exact he (by simp [h1])
    · rfl

/-- An answer of a short list with a unique deduplication key survives
finalization. -/
theorem mem_finalizeAnswers_of (answers : List Answer) (x : Answer)
    (hx : x ∈ answers) (hlen : answers.length ≤ 4)
    (huniq : ∀ y ∈ answers, dedupKey y = dedupKey x → y = x) :
    x ∈ finalizeAnswers answers := by
  have hxs : x ∈ sortDesc finalSortKey answers := (mem_sortDesc finalSortKey answers x).mpr hx
  have hmemd : x ∈ dedupAnswers (sortDesc finalSortKey answers) [] :=
    mem_dedupAnswers _ [] x hxs
      (fun y hy => huniq y ((mem_sortDesc finalSortKey answers y).mp hy))
      (by simp)
  have hlend : (dedupAnswers (sortDesc finalSortKey answers) []).length ≤ 4 := by
    have h1 := (dedupAnswers_sublist (sortDesc finalSortKey answers) []).length_le
    rw [length_sortDesc] at h1
    omega
  have hne : (dedupAnswers (sortDesc finalSortKey answers) []).isEmpty ≠ true := by
    intro hheq
    have h0 : dedupAnswers (sortDesc finalSortKey answers) [] = [] := by
      simpa using hheq
    rw [h0] at hmemd
    exact List.not_mem_nil x hmemd
  unfold finalizeAnswers
  dsimp only
  rw [if_pos hne, List.take_of_length_le hlend]
  exact hmemd

/-- C7: on the query "my laptop wont turn on, completely dead" against every
well-formed knowledge base, with no metrics supplied, the engine detects no
hazard word, sets the `no_power` symptom, and its result contains the
no-power expert-diagnosis answer at HIGH priority with its five-step
power-order troubleshooting list, while no returned answer bears the
category Peripheral, Input Devices or Audio. -/
theorem C7_no_power_example (facts : List CategoryFact)
    (_hwf : wellFormedKB facts = true) :
    check_emergency_situation (pyStrip (pyLower noPowerQuery)) = none ∧
    symGet (extract_all_symptoms (pyStrip (pyLower noPowerQuery))) "no_power" = true ∧
    noPowerAdvice ∈ enhanced_reason facts noPowerQuery none ∧
    noPowerAdvice.type = "expert_diagnosis" ∧
    noPowerAdvice.priority = "HIGH" ∧
    noPowerAdvice.troubleshooting_steps = some
      ["1. Verify power cable and outlet work",
       "2. Drain residual power (hold power button 30+ seconds)",
       "3. Check internal power connections",
       "4. Test with minimal hardware configuration",
       "5. Try known-good PSU if available"] ∧
    ∀ a ∈ enhanced_reason facts noPowerQuery none,
      a.category.getD "" ∉ ["Peripheral", "Input Devices", "Audio"] := by
  have hchk : check_emergency_situation (pyStrip (pyLower noPowerQuery)) = none := by
    rw [noPowerQuery_norm]
    exact noPowerQuery_check
  have hres := enhanced_reason_of_check_none facts noPowerQuery none hchk
  rw [noPowerQuery_norm] at hres
  have hlen2 : (bestKbMatches noPowerQuery
      (kbMatchesOf facts noPowerQuery noPowerQuery none)).length ≤ 2 :=
    bestKbMatches_len _ _
  have htype : ∀ x ∈ bestKbMatches noPowerQuery
      (kbMatchesOf facts noPowerQuery noPowerQuery none), x.type = "kb_match" := by
    intro x hx
    rcases bestKbMatches_core noPowerQuery _ x hx with ⟨y, hy, ht, _⟩
    rw [ht]
    exact (kbMatchesOf_shape facts noPowerQuery noPowerQuery none y hy).1
  rw [fuse_noPower _ hlen2] at hres
  have key : ∀ fused : List Answer, fused.length ≤ 3 →
      noPowerAdvice ∈ fused →
      (∀ y ∈ fused, y = noPowerAdvice ∨ y.type = "kb_match") →
      noPowerAdvice ∈ finalizeAnswers (filter_irrelevant_answers fused noPowerQuery
        (extract_all_symptoms_in SYMPTOM_DEFINITIONS noPowerQuery)) ∧
      ∀ a ∈ finalizeAnswers (filter_irrelevant_answers fused noPowerQuery
        (extract_all_symptoms_in SYMPTOM_DEFINITIONS noPowerQuery)),
        a.category.getD "" ∉ ["Peripheral", "Input Devices", "Audio"] := by
    intro fused hflen hfmem hfall
    constructor
    · have hmf : noPowerAdvice ∈ filter_irrelevant_answers fused noPowerQuery
          (extract_all_symptoms_in SYMPTOM_DEFINITIONS noPowerQuery) := by
        unfold filter_irrelevant_answers
        dsimp only
        exact List.mem_filter.mpr ⟨hfmem, by decide⟩
      have hlf : (filter_irrelevant_answers fused noPowerQuery
          (extract_all_symptoms_in SYMPTOM_DEFINITIONS noPowerQuery)).length ≤ 4 := by
        unfold filter_irrelevant_answers
        dsimp only
        refine le_trans (List.length_filter_le _ _) ?_
        omega
      refine mem_finalizeAnswers_of _ _ hmf hlf ?_
      intro y hy hkey
      have hyf : y ∈ fused := by
        unfold filter_irrelevant_answers at hy
        dsimp only at hy
        exact (List.mem_filter.mp hy).1
      rcases hfall y hyf with h | h
      · exact h
      · exfalso
        have h1 := congrArg Prod.fst hkey
        simp only [dedupKey] at h1
        rw [h] at h1
        exact absurd h1 (by decide)
    · intro a ha
      rcases mem_finalizeAnswers _ a ha with h | rfl
      · unfold filter_irrelevant_answers at h
        dsimp only at h
        have hp := (List.mem_filter.mp h).2
        rw [noPowerQuery_main_symptom] at hp
        intro hbad
        have hcat : a.category.getD "" ∈ ["Input Devices", "Peripheral", "Audio"] := by
          simp only [List.mem_cons, List.not_mem_nil, or_false] at hbad ⊢
          tauto
        rw [if_pos ⟨rfl, Or.inl hcat⟩] at hp
        exact Bool.noConfusion hp
      · decide
  rw [hres]
  by_cases he : (bestKbMatches noPowerQuery
      (kbMatchesOf facts noPowerQuery noPowerQuery none)).isEmpty
  · rw [if_pos he]
    have hk := key [noPowerAdvice, noPowerAdvice] (by simp) (by simp)
      (by
        intro y hy
        simp only [List.mem_cons, List.not_mem_nil, or_false] at hy
        rcases hy with rfl | rfl
        · exact Or.inl rfl
        · exact Or.inl rfl)
    exact ⟨hchk, by decide, hk.1, rfl, rfl, rfl, hk.2⟩
  · rw [if_neg he]
    have hk := key (bestKbMatches noPowerQuery
        (kbMatchesOf facts noPowerQuery noPowerQuery none) ++ [noPowerAdvice])
      (by
        rw [List.length_append]
        simp only [List.length_singleton]
        omega)
      (List.mem_append.mpr (Or.inr (List.mem_singleton.mpr rfl)))
      (by
        intro y hy
        rcases List.mem_append.mp hy with h | h
        · exact Or.inr (htype y h)
        · exact Or.inl (List.mem_singleton.mp h))
    exact ⟨hchk, by decide, hk.1, rfl, rfl, rfl, hk.2⟩

/-- Witness for C7 at the empty (well-formed) knowledge base. -/
theorem C7_no_power_example_witness :
    wellFormedKB [] = true ∧
    noPowerAdvice ∈ enhanced_reason [] noPowerQuery none :=
  ⟨by decide, (C7_no_power_example [] (by decide)).2.2.1⟩

end KBS
